import Mathlib

/-!
# kursovaya_2025: session store and HTTP façade of the mobile client

Shallow embedding of `src/services/api.js` (class `ApiService`).

* JavaScript values are the inductive type `JsVal`; truthiness, `typeof`,
  string conversion and property access are the functions the service relies on.
* The service instance is a `Session`: the field `this.token` and the
  environment's `window.localStorage` (absent when the guard
  `typeof window !== 'undefined' && window.localStorage` is false).
* The network is a function `Fetch` from the URL and the request configuration
  to the outcome of `fetch`; `JSON.stringify` is a parameter `stringify`.
* Asynchronous methods are modelled by their sequential result: an
  `Except JsError JsVal` (resolved value or thrown error) and the session after.
* The screens (`src/screens`, `App.js`) run over a `World`, the session with the
  ordered list of the service methods called; their handlers and the pure
  computations of the home and statistics screens follow the service.
-/

set_option autoImplicit false

/-- JavaScript values handled by the service: primitives, arrays, plain objects
and `FormData` payloads. Numbers are the integral ones. -/
inductive JsVal where
  | undefined
  | null
  | bool (b : Bool)
  | num (n : Int)
  | str (s : String)
  | arr (items : List JsVal)
  | obj (fields : List (String × JsVal))
  | formData (entries : List (String × JsVal))

namespace JsVal

mutual
/-- String conversion as performed by template literals and by
`localStorage.setItem` (the abstract operation ToString). -/
def toStr : JsVal → String
  | undefined => "undefined"
  | null => "null"
  | bool true => "true"
  | bool false => "false"
  | num n => toString n
  | str s => s
  | arr items => joinItems items
  | obj _ => "[object Object]"
  | formData _ => "[object FormData]"
termination_by structural v => v
/-- Conversion of array elements joined by commas (`Array.prototype.join`);
`null` and `undefined` elements give the empty string. -/
def joinItems : List JsVal → String
  | [] => ""
  | x :: rest =>
    (match x with
      | undefined => ""
      | null => ""
      | v => toStr v) ++
    (match rest with
      | [] => ""
      | _ => "," ++ joinItems rest)
termination_by structural l => l
end

/-- Truthiness of a value in a condition (`if (v)`, `v && w`). -/
def truthy : JsVal → Bool
  | undefined => false
  | null => false
  | bool b => b
  | num n => n != 0
  | str s => s != ""
  | arr _ => true
  | obj _ => true
  | formData _ => true

/-- The test `typeof v === 'object'`. -/
def isObject : JsVal → Bool
  | null => true
  | arr _ => true
  | obj _ => true
  | formData _ => true
  | _ => false

/-- The test `v instanceof FormData`. -/
def isFormData : JsVal → Bool
  | formData _ => true
  | _ => false

/-- Reading of an own property of a plain object. -/
def lookupField : List (String × JsVal) → String → JsVal
  | [], _ => undefined
  | (k, v) :: rest, key => if k = key then v else lookupField rest key

/-- Property access `v.key` for a data property such as `token`: defined on plain
objects, `undefined` on every other value that can be dereferenced. -/
def getProp : JsVal → String → JsVal
  | obj fields, key => lookupField fields key
  | _, _ => undefined

end JsVal

/-- A thrown JavaScript error: the constructor name and the message. -/
structure JsError where
  name : String
  message : String

/-- String-valued property bags: the `headers` object and `localStorage`. -/
abbrev Dict := List (String × String)

namespace Dict

/-- Property read / `getItem`: the value under the key, if any. -/
def get : Dict → String → Option String
  | [], _ => none
  | (k, v) :: rest, key => if k = key then some v else get rest key

/-- Property assignment / `setItem`: replaces the value under the key or adds it. -/
def set : Dict → String → String → Dict
  | [], key, val => [(key, val)]
  | (k, v) :: rest, key, val =>
    if k = key then (key, val) :: rest else (k, v) :: set rest key val

/-- Property removal / `removeItem`. -/
def erase : Dict → String → Dict
  | [], _ => []
  | (k, v) :: rest, key => if k = key then erase rest key else (k, v) :: erase rest key

/-- Number of entries carrying the key. -/
def count : Dict → String → Nat
  | [], _ => 0
  | (k, _) :: rest, key => (if k = key then 1 else 0) + count rest key

end Dict

namespace ApiService

/-- The constant `API_BASE_URL`. -/
def API_BASE_URL : String := "http://192.168.1.3:5000/api"

/-- The `options` argument of `request`; `none` is an absent key. -/
structure Options where
  method : Option String
  headers : Option Dict
  body : Option JsVal

/-- The call `request(endpoint)` with the default `options = {}`. -/
def noOptions : Options := ⟨none, none, none⟩

/-- The `config` object handed to `fetch`. -/
structure Config where
  method : Option String
  headers : Dict
  body : Option JsVal

/-- The response of `fetch`: the status and the outcome of `response.json()`. -/
structure Response where
  status : Nat
  json : Except JsError JsVal

/-- The flag `response.ok`: the status is in the range 200-299. -/
def Response.ok (r : Response) : Bool := decide (200 ≤ r.status) && decide (r.status ≤ 299)

/-- The network: `fetch(url, config)` either rejects with an error or resolves
with a response. -/
abbrev Fetch := String → Config → Except JsError Response

/-- The service instance in its environment: `this.token` and
`window.localStorage` (`none` when the environment offers no such storage). -/
structure Session where
  token : JsVal
  storage : Option Dict

/-- The constructor: `this.token = null`, over the storage of the environment. -/
def fresh (storage : Option Dict) : Session := ⟨JsVal.null, storage⟩

/-- The value persisted under the key `authToken`, if there is one. -/
def persistedToken (s : Session) : Option String :=
  match s.storage with
  | some st => st.get "authToken"
  | none => none

/-- Lines 13-28 of `request`: the configuration built from the token and the options. -/
def buildConfig (stringify : JsVal → String) (token : JsVal) (options : Options) : Config :=
  -- { headers: { 'Content-Type': 'application/json', ...options.headers }, ...options }
  let headers : Dict :=
    match options.headers with
    | some h => h
    | none => [("Content-Type", "application/json")]
  -- if (this.token) config.headers['Authorization'] = ...
  let headers : Dict :=
    if token.truthy then headers.set "Authorization" ("Bearer " ++ token.toStr) else headers
  -- if (options.body && typeof options.body === 'object' && !(... instanceof FormData))
  let body : Option JsVal :=
    match options.body with
    | some b =>
      if b.truthy && b.isObject && !b.isFormData then some (JsVal.str (stringify b)) else some b
    | none => none
  ⟨options.method, headers, body⟩

/-- The message of the error thrown at line 36 for a response that is not ok. -/
def httpErrorMessage (status : Nat) : String := "HTTP error! status: " ++ toString status

/-- Lines 30-47 of `request`: what becomes of the outcome of `fetch`. -/
def settle (outcome : Except JsError Response) : Except JsError JsVal :=
  match outcome with
  | Except.error e => Except.error e
  | Except.ok response =>
    if response.ok then
      match response.json with
      | Except.ok data => Except.ok data
      | Except.error e => Except.error e
    else
      Except.error ⟨"Error", httpErrorMessage response.status⟩

/-- The method `request(endpoint, options)`. It reads the token and writes nothing. -/
def request (stringify : JsVal → String) (fetch : Fetch) (s : Session)
    (endpoint : String) (options : Options) : Except JsError JsVal :=
  settle (fetch (API_BASE_URL ++ endpoint) (buildConfig stringify s.token options))

/-- The shared tail of `login` and `register`: store the returned token. -/
def storeToken (s : Session) (outcome : Except JsError JsVal) : Except JsError JsVal × Session :=
  match outcome with
  | Except.error e => (Except.error e, s)
  | Except.ok result =>
    if result.truthy && (result.getProp "token").truthy then
      (Except.ok result,
        ⟨result.getProp "token",
          match s.storage with
          | some st => some (st.set "authToken" (result.getProp "token").toStr)
          | none => none⟩)
    else
      (Except.ok result, s)

/-- The method `login(email, password)`. -/
def login (stringify : JsVal → String) (fetch : Fetch) (s : Session)
    (email password : JsVal) : Except JsError JsVal × Session :=
  storeToken s (request stringify fetch s "/login"
    ⟨some "POST", none, some (JsVal.obj [("email", email), ("password", password)])⟩)

/-- The method `register(username, email, password)`. -/
def register (stringify : JsVal → String) (fetch : Fetch) (s : Session)
    (username email password : JsVal) : Except JsError JsVal × Session :=
  storeToken s (request stringify fetch s "/register"
    ⟨some "POST", none,
      some (JsVal.obj [("username", username), ("email", email), ("password", password)])⟩)

/-- The method `restoreToken()`: the returned flag and the session after. -/
def restoreToken (s : Session) : Bool × Session :=
  match s.storage with
  | some st =>
    match st.get "authToken" with
    | some savedToken =>
      if (JsVal.str savedToken).truthy then (true, ⟨JsVal.str savedToken, s.storage⟩)
      else (false, s)
    | none => (false, s)
  | none => (false, s)

/-- The method `clearToken()`. -/
def clearToken (s : Session) : Session :=
  ⟨JsVal.null,
    match s.storage with
    | some st => some (st.erase "authToken")
    | none => none⟩

/-- The method `checkAuth()`. -/
def checkAuth (stringify : JsVal → String) (fetch : Fetch) (s : Session) :
    Except JsError JsVal × Session :=
  let s1 := if s.token.truthy then s else (restoreToken s).2
  match request stringify fetch s1 "/users/profile" noOptions with
  | Except.ok response => (Except.ok response, s1)
  | Except.error _ => (Except.error ⟨"Error", "Not authenticated"⟩, clearToken s1)

/-- The method `testConnection()`. -/
def testConnection (stringify : JsVal → String) (fetch : Fetch) (s : Session) :
    Except JsError JsVal :=
  request stringify fetch s "/test" noOptions

/-- The method `getCurrentUser()`. -/
def getCurrentUser (stringify : JsVal → String) (fetch : Fetch) (s : Session) :
    Except JsError JsVal :=
  request stringify fetch s "/users/profile" noOptions

/-- The method `getArticles()`. -/
def getArticles (stringify : JsVal → String) (fetch : Fetch) (s : Session) :
    Except JsError JsVal :=
  request stringify fetch s "/articles" noOptions

/-- The method `getArticle(slug)`. -/
def getArticle (stringify : JsVal → String) (fetch : Fetch) (s : Session) (slug : JsVal) :
    Except JsError JsVal :=
  request stringify fetch s ("/articles/" ++ slug.toStr) noOptions

/-- The method `createArticle(articleData)`. -/
def createArticle (stringify : JsVal → String) (fetch : Fetch) (s : Session)
    (articleData : JsVal) : Except JsError JsVal :=
  request stringify fetch s "/articles" ⟨some "POST", none, some articleData⟩

/-- The method `getComments(slug)`. -/
def getComments (stringify : JsVal → String) (fetch : Fetch) (s : Session) (slug : JsVal) :
    Except JsError JsVal :=
  request stringify fetch s ("/articles/" ++ slug.toStr ++ "/comments") noOptions

/-- The method `addComment(slug, text)`. -/
def addComment (stringify : JsVal → String) (fetch : Fetch) (s : Session)
    (slug text : JsVal) : Except JsError JsVal :=
  request stringify fetch s ("/articles/" ++ slug.toStr ++ "/comments")
    ⟨some "POST", none, some (JsVal.obj [("text", text)])⟩

/-- The method `toggleLike(slug)`. -/
def toggleLike (stringify : JsVal → String) (fetch : Fetch) (s : Session) (slug : JsVal) :
    Except JsError JsVal :=
  request stringify fetch s ("/articles/" ++ slug.toStr ++ "/like") ⟨some "POST", none, none⟩

/-- The method `updateProfile(profileData)`. -/
def updateProfile (stringify : JsVal → String) (fetch : Fetch) (s : Session)
    (profileData : JsVal) : Except JsError JsVal :=
  request stringify fetch s "/users/profile" ⟨some "PUT", none, some profileData⟩

/-- The method `getStatistics(userId)`. -/
def getStatistics (stringify : JsVal → String) (fetch : Fetch) (s : Session)
    (userId : JsVal) : Except JsError JsVal :=
  request stringify fetch s ("/users/" ++ userId.toStr ++ "/statistics") noOptions

/-- The method `getFavoriteArticles()`. -/
def getFavoriteArticles (stringify : JsVal → String) (fetch : Fetch) (s : Session) :
    Except JsError JsVal :=
  request stringify fetch s "/users/favorites" noOptions

/-- The method `getUserArticles()`. -/
def getUserArticles (stringify : JsVal → String) (fetch : Fetch) (s : Session) :
    Except JsError JsVal :=
  request stringify fetch s "/users/articles" noOptions

/-- The method `getUserLikes()`. -/
def getUserLikes (stringify : JsVal → String) (fetch : Fetch) (s : Session) :
    Except JsError JsVal :=
  request stringify fetch s "/users/likes" noOptions

/-- The method `getUserComments()`. -/
def getUserComments (stringify : JsVal → String) (fetch : Fetch) (s : Session) :
    Except JsError JsVal :=
  request stringify fetch s "/users/comments" noOptions

/-- The method `getUserStatistics(userId)`. -/
def getUserStatistics (stringify : JsVal → String) (fetch : Fetch) (s : Session)
    (userId : JsVal) : Except JsError JsVal :=
  request stringify fetch s ("/users/" ++ userId.toStr ++ "/statistics") noOptions

/-- The method `updateArticle(slug, articleData)`. -/
def updateArticle (stringify : JsVal → String) (fetch : Fetch) (s : Session)
    (slug articleData : JsVal) : Except JsError JsVal :=
  request stringify fetch s ("/articles/" ++ slug.toStr) ⟨some "PUT", none, some articleData⟩

/-- The method `deleteArticle(slug)`. -/
def deleteArticle (stringify : JsVal → String) (fetch : Fetch) (s : Session) (slug : JsVal) :
    Except JsError JsVal :=
  request stringify fetch s ("/articles/" ++ slug.toStr) ⟨some "DELETE", none, none⟩

/-- The method `generateAIContent(params)`. -/
def generateAIContent (stringify : JsVal → String) (fetch : Fetch) (s : Session)
    (params : JsVal) : Except JsError JsVal :=
  request stringify fetch s "/ai/generate-article" ⟨some "POST", none, some params⟩

/-- The method `generateAIAnalytics(params)`. -/
def generateAIAnalytics (stringify : JsVal → String) (fetch : Fetch) (s : Session)
    (params : JsVal) : Except JsError JsVal :=
  request stringify fetch s "/ai/analytics" ⟨some "POST", none, some params⟩

/-- The method `getAIRecommendations()`. -/
def getAIRecommendations (stringify : JsVal → String) (fetch : Fetch) (s : Session) :
    Except JsError JsVal :=
  request stringify fetch s "/ai/recommendations" noOptions

/-- The domain operations of the service: every method that issues a request. -/
inductive Op where
  | testConnection
  | login (email password : JsVal)
  | register (username email password : JsVal)
  | getCurrentUser
  | getArticles
  | getArticle (slug : JsVal)
  | createArticle (articleData : JsVal)
  | getComments (slug : JsVal)
  | addComment (slug text : JsVal)
  | toggleLike (slug : JsVal)
  | updateProfile (profileData : JsVal)
  | getStatistics (userId : JsVal)
  | getFavoriteArticles
  | getUserArticles
  | getUserLikes
  | getUserComments
  | getUserStatistics (userId : JsVal)
  | updateArticle (slug articleData : JsVal)
  | deleteArticle (slug : JsVal)
  | generateAIContent (params : JsVal)
  | generateAIAnalytics (params : JsVal)
  | getAIRecommendations

/-- Invocation of a domain operation: its result and the session after it. -/
def Op.run (stringify : JsVal → String) (fetch : Fetch) (s : Session) :
    Op → Except JsError JsVal × Session
  | Op.testConnection => (ApiService.testConnection stringify fetch s, s)
  | Op.login email password => ApiService.login stringify fetch s email password
  | Op.register username email password => ApiService.register stringify fetch s username email password
  | Op.getCurrentUser => (ApiService.getCurrentUser stringify fetch s, s)
  | Op.getArticles => (ApiService.getArticles stringify fetch s, s)
  | Op.getArticle slug => (ApiService.getArticle stringify fetch s slug, s)
  | Op.createArticle articleData => (ApiService.createArticle stringify fetch s articleData, s)
  | Op.getComments slug => (ApiService.getComments stringify fetch s slug, s)
  | Op.addComment slug text => (ApiService.addComment stringify fetch s slug text, s)
  | Op.toggleLike slug => (ApiService.toggleLike stringify fetch s slug, s)
  | Op.updateProfile profileData => (ApiService.updateProfile stringify fetch s profileData, s)
  | Op.getStatistics userId => (ApiService.getStatistics stringify fetch s userId, s)
  | Op.getFavoriteArticles => (ApiService.getFavoriteArticles stringify fetch s, s)
  | Op.getUserArticles => (ApiService.getUserArticles stringify fetch s, s)
  | Op.getUserLikes => (ApiService.getUserLikes stringify fetch s, s)
  | Op.getUserComments => (ApiService.getUserComments stringify fetch s, s)
  | Op.getUserStatistics userId => (ApiService.getUserStatistics stringify fetch s userId, s)
  | Op.updateArticle slug articleData => (ApiService.updateArticle stringify fetch s slug articleData, s)
  | Op.deleteArticle slug => (ApiService.deleteArticle stringify fetch s slug, s)
  | Op.generateAIContent params => (ApiService.generateAIContent stringify fetch s params, s)
  | Op.generateAIAnalytics params => (ApiService.generateAIAnalytics stringify fetch s params, s)
  | Op.getAIRecommendations => (ApiService.getAIRecommendations stringify fetch s, s)

/-- Whether the operation is `login` or `register`. -/
def Op.isAuth : Op → Bool
  | Op.login _ _ => true
  | Op.register _ _ _ => true
  | _ => false

/-- Every call a client can make on the service: a domain operation or one of
the session methods. -/
inductive Call where
  | domain (op : Op)
  | restoreToken
  | clearToken
  | checkAuth

/-- Invocation of a call: its result and the session after it. -/
def Call.run (stringify : JsVal → String) (fetch : Fetch) (s : Session) :
    Call → Except JsError JsVal × Session
  | Call.domain op => op.run stringify fetch s
  | Call.restoreToken => (Except.ok (JsVal.bool (ApiService.restoreToken s).1), (ApiService.restoreToken s).2)
  | Call.clearToken => (Except.ok JsVal.undefined, ApiService.clearToken s)
  | Call.checkAuth => ApiService.checkAuth stringify fetch s

/-- A sequence of calls, each against the network as it answers at that moment. -/
def runCalls (stringify : JsVal → String) : Session → List (Call × Fetch) → Session
  | s, [] => s
  | s, (c, fetch) :: rest => runCalls stringify (c.run stringify fetch s).2 rest

/-- The endpoint a domain operation hands to `request`. -/
def Op.endpoint : Op → String
  | Op.testConnection => "/test"
  | Op.login _ _ => "/login"
  | Op.register _ _ _ => "/register"
  | Op.getCurrentUser => "/users/profile"
  | Op.getArticles => "/articles"
  | Op.getArticle slug => "/articles/" ++ slug.toStr
  | Op.createArticle _ => "/articles"
  | Op.getComments slug => "/articles/" ++ slug.toStr ++ "/comments"
  | Op.addComment slug _ => "/articles/" ++ slug.toStr ++ "/comments"
  | Op.toggleLike slug => "/articles/" ++ slug.toStr ++ "/like"
  | Op.updateProfile _ => "/users/profile"
  | Op.getStatistics userId => "/users/" ++ userId.toStr ++ "/statistics"
  | Op.getFavoriteArticles => "/users/favorites"
  | Op.getUserArticles => "/users/articles"
  | Op.getUserLikes => "/users/likes"
  | Op.getUserComments => "/users/comments"
  | Op.getUserStatistics userId => "/users/" ++ userId.toStr ++ "/statistics"
  | Op.updateArticle slug _ => "/articles/" ++ slug.toStr
  | Op.deleteArticle slug => "/articles/" ++ slug.toStr
  | Op.generateAIContent _ => "/ai/generate-article"
  | Op.generateAIAnalytics _ => "/ai/analytics"
  | Op.getAIRecommendations => "/ai/recommendations"

/-- The options a domain operation hands to `request`. -/
def Op.options : Op → Options
  | Op.login email password =>
    ⟨some "POST", none, some (JsVal.obj [("email", email), ("password", password)])⟩
  | Op.register username email password =>
    ⟨some "POST", none,
      some (JsVal.obj [("username", username), ("email", email), ("password", password)])⟩
  | Op.createArticle articleData => ⟨some "POST", none, some articleData⟩
  | Op.addComment _ text => ⟨some "POST", none, some (JsVal.obj [("text", text)])⟩
  | Op.toggleLike _ => ⟨some "POST", none, none⟩
  | Op.updateProfile profileData => ⟨some "PUT", none, some profileData⟩
  | Op.updateArticle _ articleData => ⟨some "PUT", none, some articleData⟩
  | Op.deleteArticle _ => ⟨some "DELETE", none, none⟩
  | Op.generateAIContent params => ⟨some "POST", none, some params⟩
  | Op.generateAIAnalytics params => ⟨some "POST", none, some params⟩
  | _ => noOptions

/-- Whether the result of `login` or `register` made the method store a token
(the condition `result && result.token`). -/
def storesToken : Except JsError JsVal → Bool
  | Except.ok result => result.truthy && (result.getProp "token").truthy
  | Except.error _ => false

/-- Whether the call, made in session `s` against `fetch`, writes the persisted
credential: a `login` or `register` that receives a token, `clearToken`, or a
`checkAuth` whose request fails (its handler clears the token). -/
def Call.writesStore (stringify : JsVal → String) (fetch : Fetch) (s : Session) : Call → Bool
  | Call.domain op => op.isAuth && storesToken (op.run stringify fetch s).1
  | Call.restoreToken => false
  | Call.clearToken => true
  | Call.checkAuth =>
    match (ApiService.checkAuth stringify fetch s).1 with
    | Except.ok _ => false
    | Except.error _ => true

/-- No call of the sequence, run from `s`, writes the persisted credential. -/
def quiet (stringify : JsVal → String) : Session → List (Call × Fetch) → Bool
  | _, [] => true
  | s, (c, fetch) :: rest =>
    !c.writesStore stringify fetch s && quiet stringify (c.run stringify fetch s).2 rest

/-- The in-memory token of a new service instance after `restoreToken()`,
started over the storage that session `s` leaves behind. -/
def restoredToken (s : Session) : JsVal := (restoreToken (fresh s.storage)).2.token

/-- A network that answers every request with the given status and JSON body. -/
def answering (status : Nat) (body : JsVal) : Fetch :=
  fun _ _ => Except.ok ⟨status, Except.ok body⟩

/-- A network on which every request fails before a response arrives. -/
def offline : Fetch :=
  fun _ _ => Except.error ⟨"TypeError", "Network request failed"⟩

/-- A serializer used in the worked examples, where its output is never
inspected; the theorems quantify over every serializer. -/
def sampleStringify : JsVal → String := fun v => v.toStr

/-- One step of reading a decimal numeral: the value so far and the next digit. -/
def digitStep (acc : Nat) (c : Char) : Nat := 10 * acc + (c.toNat - 48)

/-- The status read back from the message of an HTTP error: the decimal numeral
that follows the 20 characters of `HTTP error! status: `. -/
def statusOfMessage (message : String) : Nat :=
  (message.data.drop 20).foldl digitStep 0

/-- The service as the screens use it: the session and the service methods
called so far, in the order of the calls. -/
structure World where
  session : Session
  calls : List Call

/-- A screen calls a service method and waits for it: the result, and the world
with the session after the call and the call recorded. -/
def invoke (stringify : JsVal → String) (fetch : Fetch) (w : World) (c : Call) :
    Except JsError JsVal × World :=
  ((c.run stringify fetch w.session).1,
    ⟨(c.run stringify fetch w.session).2, w.calls ++ [c]⟩)

/-- The relation between the in-memory token and the store that every call
keeps: the storage is there, and the token is `null` or it is truthy and its
string form is what is persisted. -/
def Consistent (s : Session) : Prop :=
  s.storage.isSome = true ∧
    (s.token = JsVal.null ∨ (s.token.truthy = true ∧ persistedToken s = some s.token.toStr))

/-- One row of the interface table of the specification: method (`none` for a
GET row, which names no method), path and body. -/
structure Row where
  method : Option String
  path : String
  body : Option JsVal

/-- The interface table as the specification lists it, operation by operation;
`none` for a method of the service that the table does not list. -/
def catalogRow : Op → Option Row
  | Op.login email password =>
    some ⟨some "POST", "/login", some (JsVal.obj [("email", email), ("password", password)])⟩
  | Op.register username email password =>
    some ⟨some "POST", "/register",
      some (JsVal.obj [("username", username), ("email", email), ("password", password)])⟩
  | Op.getCurrentUser => some ⟨none, "/users/profile", none⟩
  | Op.updateProfile profileData => some ⟨some "PUT", "/users/profile", some profileData⟩
  | Op.getArticles => some ⟨none, "/articles", none⟩
  | Op.getArticle slug => some ⟨none, "/articles/" ++ slug.toStr, none⟩
  | Op.createArticle articleData => some ⟨some "POST", "/articles", some articleData⟩
  | Op.updateArticle slug articleData =>
    some ⟨some "PUT", "/articles/" ++ slug.toStr, some articleData⟩
  | Op.deleteArticle slug => some ⟨some "DELETE", "/articles/" ++ slug.toStr, none⟩
  | Op.getComments slug => some ⟨none, "/articles/" ++ slug.toStr ++ "/comments", none⟩
  | Op.addComment slug text =>
    some ⟨some "POST", "/articles/" ++ slug.toStr ++ "/comments",
      some (JsVal.obj [("text", text)])⟩
  | Op.toggleLike slug => some ⟨some "POST", "/articles/" ++ slug.toStr ++ "/like", none⟩
  | Op.getUserArticles => some ⟨none, "/users/articles", none⟩
  | Op.getUserLikes => some ⟨none, "/users/likes", none⟩
  | Op.getUserComments => some ⟨none, "/users/comments", none⟩
  | Op.getFavoriteArticles => some ⟨none, "/users/favorites", none⟩
  | Op.generateAIContent params => some ⟨some "POST", "/ai/generate-article", some params⟩
  | Op.generateAIAnalytics params => some ⟨some "POST", "/ai/analytics", some params⟩
  | Op.getAIRecommendations => some ⟨none, "/ai/recommendations", none⟩
  | Op.testConnection => none
  | Op.getStatistics _ => none
  | Op.getUserStatistics _ => none

end ApiService

namespace JsVal

/-- The operator `a || b`. -/
def or (a b : JsVal) : JsVal := if a.truthy then a else b

/-- Optional chaining `v?.key`. -/
def optChain : JsVal → String → JsVal
  | null, _ => undefined
  | undefined, _ => undefined
  | v, key => v.getProp key

/-- Length of a string in UTF-16 code units. -/
def utf16Length (s : String) : Nat :=
  (s.data.map (fun c => if 65536 ≤ c.toNat then 2 else 1)).sum

/-- The property read `v.length`; it throws on `null` and `undefined`. -/
def lengthOf : JsVal → Except JsError JsVal
  | null => Except.error ⟨"TypeError", "Cannot read property 'length' of null"⟩
  | undefined => Except.error ⟨"TypeError", "Cannot read property 'length' of undefined"⟩
  | arr items => Except.ok (num items.length)
  | str s => Except.ok (num (utf16Length s))
  | obj fields => Except.ok (lookupField fields "length")
  | _ => Except.ok undefined

end JsVal

/-- The test `text.includes(part)` on the characters of the two strings. -/
def includesChars : List Char → List Char → Bool
  | [], part => part.isEmpty
  | c :: rest, part => part.isPrefixOf (c :: rest) || includesChars rest part

/-- The method `String.prototype.includes`. -/
def includes (text part : String) : Bool := includesChars text.data part.data

/-- Whether `String.prototype.trim` removes the character: the white space and
line terminator code points of the language. -/
def isTrimmed (c : Char) : Bool :=
  c.toNat ∈ [9, 10, 11, 12, 13, 32, 160, 5760, 8232, 8233, 8239, 8287, 12288, 65279] ||
    (decide (8192 ≤ c.toNat) && decide (c.toNat ≤ 8202))

/-- The method `String.prototype.trim`. -/
def jsTrim (s : String) : String :=
  ⟨((s.data.dropWhile isTrimmed).reverse.dropWhile isTrimmed).reverse⟩

namespace ProfileScreen

open ApiService

/-- The state `stats` of the profile screen. -/
structure Stats where
  articlesCount : JsVal
  likesCount : JsVal
  commentsCount : JsVal
  favoritesCount : JsVal

/-- The state of the profile screen: `user`, `loading` and `stats`. -/
structure View where
  user : JsVal
  loading : Bool
  stats : Stats

/-- The function `loadUserStatistics`. The argument `user` is the state `user`
as the function sees it (the value of the render that created it). -/
def loadUserStatistics (stringify : JsVal → String) (fetch : Fetch) (user : JsVal)
    (w : World) (v : View) : World × View :=
  -- the catch block
  let fallback : Stats :=
    ⟨(user.optChain "articles_count").or (JsVal.num 0),
      (user.optChain "likes_count").or (JsVal.num 0),
      (user.optChain "comments_count").or (JsVal.num 0), JsVal.num 0⟩
  let r1 := invoke stringify fetch w (Call.domain Op.getUserArticles)
  match r1.1.bind JsVal.lengthOf with
  | Except.error _ => (r1.2, ⟨v.user, v.loading, fallback⟩)
  | Except.ok len1 =>
    let r2 := invoke stringify fetch r1.2 (Call.domain Op.getUserLikes)
    match r2.1.bind JsVal.lengthOf with
    | Except.error _ => (r2.2, ⟨v.user, v.loading, fallback⟩)
    | Except.ok len2 =>
      let r3 := invoke stringify fetch r2.2 (Call.domain Op.getUserComments)
      match r3.1.bind JsVal.lengthOf with
      | Except.error _ => (r3.2, ⟨v.user, v.loading, fallback⟩)
      | Except.ok len3 =>
        let r4 := invoke stringify fetch r3.2 (Call.domain Op.getFavoriteArticles)
        match r4.1.bind JsVal.lengthOf with
        | Except.error _ => (r4.2, ⟨v.user, v.loading, fallback⟩)
        | Except.ok len4 =>
          (r4.2, ⟨v.user, v.loading,
            ⟨len1.or (JsVal.num 0), len2.or (JsVal.num 0), len3.or (JsVal.num 0),
              len4.or (JsVal.num 0)⟩⟩)

/-- The function `loadUserData`, with the state `user` as the function sees it. -/
def loadUserData (stringify : JsVal → String) (fetch : Fetch) (user : JsVal)
    (w : World) (v : View) : World × View :=
  -- setLoading(true)
  let r := invoke stringify fetch w (Call.domain Op.getCurrentUser)
  match r.1 with
  | Except.ok userData =>
    -- setUser(userData); await loadUserStatistics(); finally setLoading(false)
    let done := loadUserStatistics stringify fetch user r.2 ⟨userData, true, v.stats⟩
    (done.1, ⟨done.2.user, false, done.2.stats⟩)
  | Except.error error =>
    if includes error.message "401" || includes error.message "403" then
      (r.2, ⟨JsVal.null, false, v.stats⟩)
    else
      (r.2, ⟨v.user, false, v.stats⟩)

/-- A backend that answers the four list requests with lists of 2, 0, 1 and 3
elements. -/
def listsBackend : Fetch :=
  fun url _ =>
    if url = "http://192.168.1.3:5000/api/users/articles" then
      Except.ok ⟨200, Except.ok (JsVal.arr [JsVal.null, JsVal.null])⟩
    else if url = "http://192.168.1.3:5000/api/users/likes" then
      Except.ok ⟨200, Except.ok (JsVal.arr [])⟩
    else if url = "http://192.168.1.3:5000/api/users/comments" then
      Except.ok ⟨200, Except.ok (JsVal.arr [JsVal.null])⟩
    else Except.ok ⟨200, Except.ok (JsVal.arr [JsVal.null, JsVal.null, JsVal.null])⟩

end ProfileScreen

namespace App

open ApiService

/-- The state of the root component: `isLoggedIn` and `appReady`. -/
structure State where
  isLoggedIn : Bool
  appReady : Bool

/-- The function `checkAuthStatus`, run when the application starts. -/
def checkAuthStatus (stringify : JsVal → String) (fetch : Fetch) (w : World)
    (_a : State) : World × State :=
  let r := invoke stringify fetch w Call.restoreToken
  match r.1 with
  | Except.ok isAuthenticated =>
    if isAuthenticated.truthy then
      let r2 := invoke stringify fetch r.2 Call.checkAuth
      match r2.1 with
      | Except.ok _ => (r2.2, ⟨true, true⟩)
      | Except.error _ => ((invoke stringify fetch r2.2 Call.clearToken).2, ⟨false, true⟩)
    else
      (r.2, ⟨false, true⟩)
  | Except.error _ => (r.2, ⟨false, true⟩)

end App

namespace AddArticleScreen

open ApiService

/-- The state of the form: the fields, the captured location (`null` or an object
with `lat` and `lng`), the captured image (`null` or its URI) and `loading`. -/
structure Form where
  title : String
  content : String
  category : String
  location : JsVal
  image : JsVal
  loading : Bool

/-- The object `articleData` built by `handleSubmit`. -/
def articleData (f : Form) : JsVal :=
  JsVal.obj [("title", JsVal.str (jsTrim f.title)),
    ("content", JsVal.str (jsTrim f.content)),
    ("category", JsVal.str f.category),
    ("location_lat", (f.location.optChain "lat").or JsVal.null),
    ("location_lng", (f.location.optChain "lng").or JsVal.null),
    ("photo", f.image.or JsVal.null)]

/-- The function `handleSubmit`: the world and the form after it. Alerts and
navigation are not part of the state. -/
def handleSubmit (stringify : JsVal → String) (fetch : Fetch) (w : World) (f : Form) :
    World × Form :=
  if !(JsVal.str (jsTrim f.title)).truthy || !(JsVal.str (jsTrim f.content)).truthy then
    (w, f)
  else
    let r := invoke stringify fetch w (Call.domain (Op.createArticle (articleData f)))
    match r.1 with
    | Except.ok _ => (r.2, ⟨"", "", "news", JsVal.null, JsVal.null, false⟩)
    | Except.error _ => (r.2, ⟨f.title, f.content, f.category, f.location, f.image, false⟩)

end AddArticleScreen

namespace JsVal

/-- The property read `v.key` where `v` may be absent: it throws on `null` and
`undefined`. -/
def member : JsVal → String → Except JsError JsVal
  | null, key => Except.error ⟨"TypeError", "Cannot read property '" ++ key ++ "' of null"⟩
  | undefined, key =>
    Except.error ⟨"TypeError", "Cannot read property '" ++ key ++ "' of undefined"⟩
  | v, key => Except.ok (v.getProp key)

/-- Assignment of a property in a list of fields: the value is replaced where
the key exists and added at the end otherwise. -/
def setField : List (String × JsVal) → String → JsVal → List (String × JsVal)
  | [], key, val => [(key, val)]
  | (k, v) :: rest, key, val =>
    if k = key then (key, val) :: rest else (k, v) :: setField rest key val

/-- The object literal with a spread and one more property, for a plain object `v`;
the spread of a value without own enumerable properties adds nothing. -/
def withField : JsVal → String → JsVal → JsVal
  | obj fields, key, val => obj (setField fields key val)
  | _, key, val => obj [(key, val)]

end JsVal

namespace LoginScreen

open ApiService

/-- The state of the login form. -/
structure Form where
  email : String
  password : String
  loading : Bool

/-- How `handleLogin` ended: the form was not submitted, the login succeeded
(`onLoginSuccess` receives the user), or the error branch showed a notice. -/
inductive Outcome where
  | notSubmitted
  | success (user : JsVal)
  | failure (notice : String)

/-- The notice chosen by the catch block from the message of the error. -/
def noticeFor (message : String) : String :=
  if includes message "401" || includes message "Неверный" then "Неверный email или пароль"
  else if includes message "Network" then "Проблема с подключением к серверу"
  else "Ошибка при входе"

/-- The function `handleLogin`. -/
def handleLogin (stringify : JsVal → String) (fetch : Fetch) (w : World) (f : Form) :
    World × Form × Outcome :=
  if !(JsVal.str (jsTrim f.email)).truthy || !(JsVal.str (jsTrim f.password)).truthy then
    (w, f, Outcome.notSubmitted)
  else
    let r := invoke stringify fetch w
      (Call.domain (Op.login (JsVal.str (jsTrim f.email)) (JsVal.str (jsTrim f.password))))
    match r.1 with
    | Except.ok result =>
      if result.truthy && (result.getProp "user").truthy then
        (r.2, ⟨f.email, f.password, false⟩, Outcome.success (result.getProp "user"))
      else
        (r.2, ⟨f.email, f.password, false⟩,
          Outcome.failure (noticeFor "Неверный ответ от сервера"))
    | Except.error error =>
      (r.2, ⟨f.email, f.password, false⟩, Outcome.failure (noticeFor error.message))

end LoginScreen

namespace ArticleScreen

open ApiService

/-- The state of the article screen that `handleAddComment` touches. -/
structure View where
  article : JsVal
  comments : JsVal
  newComment : String
  commentLoading : Bool

/-- The function `handleAddComment` for the article `slug`. The callback
`onArticleUpdate` belongs to another screen and is not part of the state. -/
def handleAddComment (stringify : JsVal → String) (fetch : Fetch) (slug : JsVal)
    (w : World) (v : View) : World × View :=
  if !(JsVal.str (jsTrim v.newComment)).truthy then
    (w, v)
  else
    let r1 := invoke stringify fetch w
      (Call.domain (Op.addComment slug (JsVal.str (jsTrim v.newComment))))
    match r1.1 with
    | Except.error _ => (r1.2, ⟨v.article, v.comments, v.newComment, false⟩)
    | Except.ok _ =>
      let r2 := invoke stringify fetch r1.2 (Call.domain (Op.getComments slug))
      match r2.1 with
      | Except.error _ => (r2.2, ⟨v.article, v.comments, "", false⟩)
      | Except.ok commentsData =>
        if v.article.truthy then
          match commentsData.lengthOf with
          | Except.error _ => (r2.2, ⟨v.article, commentsData, "", false⟩)
          | Except.ok n =>
            (r2.2, ⟨v.article.withField "comments_count" n, commentsData, "", false⟩)
        else
          (r2.2, ⟨v.article, commentsData, "", false⟩)

end ArticleScreen

namespace RegisterScreen

open ApiService

/-- The state of the registration form. -/
structure Form where
  username : String
  email : String
  password : String
  confirmPassword : String
  loading : Bool

/-- The function `handleRegister`. -/
def handleRegister (stringify : JsVal → String) (fetch : Fetch) (w : World) (f : Form) :
    World × Form :=
  if !(JsVal.str (jsTrim f.username)).truthy || !(JsVal.str (jsTrim f.email)).truthy ||
      !(JsVal.str (jsTrim f.password)).truthy then
    (w, f)
  else if f.password ≠ f.confirmPassword then
    (w, f)
  else if JsVal.utf16Length f.password < 6 then
    (w, f)
  else
    let r := invoke stringify fetch w
      (Call.domain (Op.register (JsVal.str (jsTrim f.username)) (JsVal.str (jsTrim f.email))
        (JsVal.str (jsTrim f.password))))
    (r.2, ⟨f.username, f.email, f.password, f.confirmPassword, false⟩)

end RegisterScreen

namespace EditArticleScreen

open ApiService

/-- The state of the edit form. -/
structure Form where
  title : String
  content : String
  category : String
  location : JsVal
  loading : Bool

/-- The object `articleData` built by `handleSubmit`. -/
def articleData (f : Form) : JsVal :=
  JsVal.obj [("title", JsVal.str (jsTrim f.title)),
    ("content", JsVal.str (jsTrim f.content)),
    ("category", JsVal.str f.category),
    ("location_lat", (f.location.optChain "lat").or JsVal.null),
    ("location_lng", (f.location.optChain "lng").or JsVal.null)]

/-- The function `handleSubmit` for the article received in the route parameters. -/
def handleSubmit (stringify : JsVal → String) (fetch : Fetch) (article : JsVal)
    (w : World) (f : Form) : World × Form :=
  if !(JsVal.str (jsTrim f.title)).truthy || !(JsVal.str (jsTrim f.content)).truthy then
    (w, f)
  else
    match article.member "slug" with
    | Except.error _ => (w, ⟨f.title, f.content, f.category, f.location, false⟩)
    | Except.ok slug =>
      let r := invoke stringify fetch w (Call.domain (Op.updateArticle slug (articleData f)))
      (r.2, ⟨f.title, f.content, f.category, f.location, false⟩)

end EditArticleScreen

namespace HomeScreen

/-- An article of the loaded list as the filter and the sort read it: `title`,
`content` and `author_name` are strings, `created_at` is the time value of
`new Date(article.created_at)` in milliseconds, and a count is `none` where the
article has none. -/
structure Article where
  title : String
  content : String
  author_name : String
  category : JsVal
  created_at : Int
  views : Option Int
  likes_count : Option Int
  comments_count : Option Int

/-- The expression `count || 0`. -/
def orZero : Option Int → Int
  | some n => n
  | none => 0

/-- The comparison `value === text` against a string. -/
def strictEq : JsVal → String → Bool
  | JsVal.str s, text => s == text
  | _, _ => false

/-- The comparator of lines 84-99: negative when `a` goes first, positive when
`b` goes first. -/
def compareBy (sortBy : String) (a b : Article) : Int :=
  if sortBy = "newest" then b.created_at - a.created_at
  else if sortBy = "oldest" then a.created_at - b.created_at
  else if sortBy = "most_views" then orZero b.views - orZero a.views
  else if sortBy = "most_likes" then orZero b.likes_count - orZero a.likes_count
  else if sortBy = "most_comments" then orZero b.comments_count - orZero a.comments_count
  else b.created_at - a.created_at

/-- The method `Array.prototype.sort` with a comparator: the sort is stable, so
for a comparator that orders the elements it is the arrangement that insertion
sort computes. -/
def sortWith (cmp : Article → Article → Int) (l : List Article) : List Article :=
  l.insertionSort (fun a b => cmp a b ≤ 0)

/-- The effect of lines 63-102: the list handed to `setFilteredArticles`. The
function `toLowerCase` is `String.prototype.toLowerCase`. -/
def filteredArticles (toLowerCase : String → String) (articles : List Article)
    (searchQuery selectedCategory sortBy : String) : List Article :=
  let filtered := articles
  let filtered :=
    if (JsVal.str (jsTrim searchQuery)).truthy then
      filtered.filter (fun article =>
        includes (toLowerCase article.title) (jsTrim (toLowerCase searchQuery)) ||
        includes (toLowerCase article.content) (jsTrim (toLowerCase searchQuery)) ||
        includes (toLowerCase article.author_name) (jsTrim (toLowerCase searchQuery)))
    else filtered
  let filtered :=
    if selectedCategory ≠ "all" then
      filtered.filter (fun article => strictEq article.category selectedCategory)
    else filtered
  sortWith (compareBy sortBy) filtered

/-- The test that the effect applies to an article, in one expression: the
query filter is skipped for a blank query and the category filter for `all`. -/
def isShown (toLowerCase : String → String) (searchQuery selectedCategory : String)
    (article : Article) : Bool :=
  (decide (jsTrim searchQuery = "") ||
    includes (toLowerCase article.title) (jsTrim (toLowerCase searchQuery)) ||
    includes (toLowerCase article.content) (jsTrim (toLowerCase searchQuery)) ||
    includes (toLowerCase article.author_name) (jsTrim (toLowerCase searchQuery))) &&
  (decide (selectedCategory = "all") || strictEq article.category selectedCategory)

/-- The articles the specification wants displayed: the trimmed query is empty,
or the characters of the query, lower-cased and trimmed, occur consecutively in
the lower-cased title, content or author name; and the selected category is
`all` or the category of the article is the selected string. -/
def Shown (toLowerCase : String → String) (searchQuery selectedCategory : String)
    (article : Article) : Prop :=
  (jsTrim searchQuery = "" ∨
    (jsTrim (toLowerCase searchQuery)).data <:+: (toLowerCase article.title).data ∨
    (jsTrim (toLowerCase searchQuery)).data <:+: (toLowerCase article.content).data ∨
    (jsTrim (toLowerCase searchQuery)).data <:+: (toLowerCase article.author_name).data) ∧
  (selectedCategory = "all" ∨ article.category = JsVal.str selectedCategory)

/-- The sort key the specification names for an option, a missing count taken
as 0; a list in display order does not increase in it. -/
def sortKey (sortBy : String) (a : Article) : Int :=
  if sortBy = "oldest" then -a.created_at
  else if sortBy = "most_views" then a.views.getD 0
  else if sortBy = "most_likes" then a.likes_count.getD 0
  else if sortBy = "most_comments" then a.comments_count.getD 0
  else a.created_at

/-- A lower-casing of the letters A to Z, used in the worked examples. -/
def asciiLower (s : String) : String := ⟨s.data.map Char.toLower⟩

/-- Three articles of the worked examples. -/
def sampleArticles : List Article :=
  [⟨"Bread", "how to bake", "Ann", JsVal.str "food", 5, some 3, some 1, none⟩,
    ⟨"Atlas", "maps", "Bob", JsVal.str "travel", 9, none, some 4, some 2⟩,
    ⟨"Cab", "taxi in town", "Eve", JsVal.str "travel", 7, some 8, none, some 6⟩]

end HomeScreen

namespace StatisticsScreen

/-- The year of a day of the Gregorian calendar, days counted from 1970-01-01. -/
def yearOfDay (day : Int) : Int :=
  let z := day + 719468
  let era := z / 146097
  let doe := z - era * 146097
  let yoe := (doe - doe / 1460 + doe / 36524 - doe / 146096) / 365
  let doy := doe - (365 * yoe + yoe / 4 - yoe / 100)
  let mp := (5 * doy + 2) / 153
  yoe + era * 400 + (if mp < 10 then 0 else 1)

/-- The day of the month of a day of the Gregorian calendar. -/
def dayOfMonth (day : Int) : Int :=
  let z := day + 719468
  let era := z / 146097
  let doe := z - era * 146097
  let yoe := (doe - doe / 1460 + doe / 36524 - doe / 146096) / 365
  let doy := doe - (365 * yoe + yoe / 4 - yoe / 100)
  let mp := (5 * doy + 2) / 153
  doy - (153 * mp + 2) / 5 + 1

/-- The day number of the first of January of a year. -/
def firstDayOf (year : Int) : Int :=
  let y := year - 1
  let era := y / 400
  let yoe := y - era * 400
  era * 146097 + (yoe * 365 + yoe / 4 - yoe / 100 + 306) - 719468

/-- A valid `Date` in local time: the day, counted from 1970-01-01, and the
milliseconds since local midnight. Local days have 24 hours. -/
structure LocalDate where
  day : Int
  ms : Fin 86400000

/-- The method `getFullYear`. -/
def getFullYear (d : LocalDate) : Int := yearOfDay d.day

/-- The method `getDate`: the day of the month. -/
def getDate (d : LocalDate) : Int := dayOfMonth d.day

/-- The method `getDay`: 0 for Sunday up to 6 for Saturday. -/
def getDay (d : LocalDate) : Int := (d.day + 4) % 7

/-- The method `setDate(n)`: the day of the month becomes `n`, rolling over into
the neighbouring months when `n` is outside the month. -/
def setDate (d : LocalDate) (n : Int) : LocalDate := ⟨d.day - getDate d + n, d.ms⟩

/-- The difference `a - b` of two dates, in milliseconds. -/
def msBetween (a b : LocalDate) : Int :=
  (a.day - b.day) * 86400000 + ((a.ms.val : Int) - (b.ms.val : Int))

/-- The function `getWeekNumber`. The quotient by 86400000 and by 7 is kept as
the exact fraction (milliseconds over the milliseconds of a week) and rounded up. -/
def getWeekNumber (date : LocalDate) : Int :=
  let firstDayOfYear : LocalDate := ⟨firstDayOf (getFullYear date), 0⟩
  let elapsed : Int := msBetween date firstDayOfYear + (getDay firstDayOfYear + 1) * 86400000
  0 - (0 - elapsed) / (7 * 86400000)

/-- The function `getWeekStartEnd`: the pair `start`, `end`. -/
def getWeekStartEnd (date : LocalDate) : LocalDate × LocalDate :=
  let day := getDay date
  let diff := getDate date - day + (if day = 0 then -6 else 1)
  let start := setDate date diff
  (start, setDate start (getDate start + 6))

/-- The key `weekKey` of line 92, as the pair of the year and the week number
that the template prints. -/
def weekKey (date : LocalDate) : Int × Int :=
  (getFullYear (getWeekStartEnd date).1, getWeekNumber (getWeekStartEnd date).1)

/-- An entry of `articlesByWeek`: `week` is the range that `formatWeekRange`
prints; `year` and `weekNumber` are absent in the placeholder entries. -/
structure Bucket where
  week : LocalDate × LocalDate
  count : Nat
  startDate : LocalDate
  year : Option Int
  weekNumber : Option Int

/-- Lines 95-104: the entry under the key is created with count 0 when it does
not exist, and its count is incremented. -/
def addToWeek : List ((Int × Int) × Bucket) → Int × Int → Bucket →
    List ((Int × Int) × Bucket)
  | [], key, created =>
    [(key, ⟨created.week, created.count + 1, created.startDate, created.year,
      created.weekNumber⟩)]
  | (k, b) :: rest, key, created =>
    if k = key then (k, ⟨b.week, b.count + 1, b.startDate, b.year, b.weekNumber⟩) :: rest
    else (k, b) :: addToWeek rest key created

/-- The body of the `forEach` of lines 89-105 for an article created at `date`. -/
def recordArticle (byWeek : List ((Int × Int) × Bucket)) (date : LocalDate) :
    List ((Int × Int) × Bucket) :=
  addToWeek byWeek (weekKey date)
    ⟨getWeekStartEnd date, 0, (getWeekStartEnd date).1,
      some (getFullYear (getWeekStartEnd date).1), some (getWeekNumber (getWeekStartEnd date).1)⟩

/-- The object `articlesByWeek` after the `forEach`, for the creation dates of
the user's articles; the entries are in the order of their creation. -/
def articlesByWeek (created : List LocalDate) : List ((Int × Int) × Bucket) :=
  created.foldl recordArticle []

/-- The array `statsData` of lines 108-109: the entries sorted by `startDate`. -/
def statsData (created : List LocalDate) : List Bucket :=
  ((articlesByWeek created).map (fun e => e.2)).insertionSort
    (fun a b => msBetween a.startDate b.startDate ≤ 0)

/-- The eight placeholder weeks of lines 113-126, ending with the week of `now`. -/
def placeholderWeeks (now : LocalDate) : List Bucket :=
  [7, 6, 5, 4, 3, 2, 1, 0].map (fun i : Int =>
    ⟨getWeekStartEnd (setDate now (getDate now - i * 7)), 0,
      (getWeekStartEnd (setDate now (getDate now - i * 7))).1, none, none⟩)

/-- The value handed to `setStatistics` when the request returned the articles
created at the given dates: the last eight weeks, or the placeholders. -/
def statistics (now : LocalDate) (created : List LocalDate) : List Bucket :=
  if (statsData created).length = 0 then placeholderWeeks now
  else (statsData created).drop ((statsData created).length - 8)

/-- The value `totalArticles` of line 200. -/
def totalArticles (stats : List Bucket) : Nat :=
  stats.foldl (fun sum item => sum + item.count) 0

/-- The value `maxValue` of `SimpleBarChart`: `Math.max(...counts, 1)`. -/
def maxValue (counts : List Nat) : Nat := counts.foldr max 1

/-- The height of the bar of an item of `SimpleBarChart`, with the chart height 150. -/
def barHeight (counts : List Nat) (count : Nat) : ℚ :=
  max ((count : ℚ) / (maxValue counts : ℚ) * 150) 10

/-- The Monday on or before a day. -/
def mondayOf (day : Int) : Int := day - (day + 3) % 7

/-- Nine creation dates, one in each of nine consecutive weeks of 2025. -/
def nineWeeks : List LocalDate :=
  [⟨20093, 0⟩, ⟨20100, 0⟩, ⟨20107, 0⟩, ⟨20114, 0⟩, ⟨20121, 0⟩, ⟨20128, 0⟩, ⟨20135, 0⟩,
    ⟨20142, 0⟩, ⟨20149, 0⟩]

end StatisticsScreen

namespace StatisticsScreen

/-- The count recorded under a key of `articlesByWeek`; 0 when the key is absent. -/
def countUnder : List ((Int × Int) × Bucket) → Int × Int → Nat
  | [], _ => 0
  | (k, b) :: rest, key => (if k = key then b.count else 0) + countUnder rest key

end StatisticsScreen

/-! ## Property bags -/

namespace Dict

theorem get_set_self (d : Dict) (key val : String) : (d.set key val).get key = some val := by
  induction d with
  | nil => simp [set, get]
  | cons p rest ih =>
    obtain ⟨k, v⟩ := p
    by_cases h : k = key
    · simp [set, get, h]
    · simp [set, get, h, ih]

theorem get_set_other (d : Dict) (key val other : String) (h : key ≠ other) :
    (d.set key val).get other = d.get other := by
  induction d with
  | nil => simp [set, get, h]
  | cons p rest ih =>
    obtain ⟨k, v⟩ := p
    by_cases hk : k = key
    · subst hk
      simp [set, get, h]
    · by_cases ho : k = other
      · subst ho
        simp [set, get, hk]
      · simp [set, get, hk, ho, ih]

theorem get_erase_self (d : Dict) (key : String) : (d.erase key).get key = none := by
  induction d with
  | nil => simp [erase, get]
  | cons p rest ih =>
    obtain ⟨k, v⟩ := p
    by_cases h : k = key
    · simp [erase, h, ih]
    · simp [erase, get, h, ih]

theorem erase_erase (d : Dict) (key : String) : (d.erase key).erase key = d.erase key := by
  induction d with
  | nil => simp [erase]
  | cons p rest ih =>
    obtain ⟨k, v⟩ := p
    by_cases h : k = key
    · simp [erase, h, ih]
    · simp [erase, h, ih]

end Dict

namespace ApiService

/-! ## The request façade -/

theorem storeToken_fst (s : Session) (outcome : Except JsError JsVal) :
    (storeToken s outcome).1 = outcome := by
  unfold storeToken
  cases outcome with
  | error e => rfl
  | ok result => by_cases h : (result.truthy && (result.getProp "token").truthy) = true <;> simp [h]

theorem run_fst_eq_request (stringify : JsVal → String) (fetch : Fetch) (s : Session) (op : Op) :
    (op.run stringify fetch s).1 = request stringify fetch s op.endpoint op.options := by
  cases op <;>
    simp [Op.run, Op.endpoint, Op.options, login, register, storeToken_fst, testConnection,
      getCurrentUser, getArticles, getArticle, createArticle, getComments, addComment,
      toggleLike, updateProfile, getStatistics, getFavoriteArticles, getUserArticles,
      getUserLikes, getUserComments, getUserStatistics, updateArticle, deleteArticle,
      generateAIContent, generateAIAnalytics, getAIRecommendations]

theorem options_headers_none (op : Op) : op.options.headers = none := by
  cases op <;> rfl

/-- C1. Every domain operation is one call of `request`, and the configuration
that call hands to `fetch` carries no `Authorization` header when no credential
is set (the token is `null`, or falsy), and exactly one, with the value
`Bearer ` followed by the token, when a credential is set. -/
theorem authorization_header_of_operation (stringify : JsVal → String) (fetch : Fetch)
    (s : Session) (op : Op) :
    (op.run stringify fetch s).1 =
        settle (fetch (API_BASE_URL ++ op.endpoint) (buildConfig stringify s.token op.options)) ∧
      (buildConfig stringify JsVal.null op.options).headers.count "Authorization" = 0 ∧
      (buildConfig stringify s.token op.options).headers.filter
          (fun h => decide (h.1 = "Authorization")) =
        if s.token.truthy then [("Authorization", "Bearer " ++ s.token.toStr)] else [] := by
  refine ⟨run_fst_eq_request stringify fetch s op, ?_, ?_⟩
  · simp [buildConfig, options_headers_none, JsVal.truthy, Dict.count]
  · by_cases h : s.token.truthy = true
    · simp [buildConfig, options_headers_none, h, Dict.set]
    · simp [buildConfig, options_headers_none, h]

/-! ## The session store -/

theorem run_snd_of_not_auth (stringify : JsVal → String) (fetch : Fetch) (s : Session)
    (op : Op) (h : op.isAuth = false) : (op.run stringify fetch s).2 = s := by
  cases op <;> first | rfl | simp [Op.isAuth] at h

theorem run_auth_eq_storeToken (stringify : JsVal → String) (fetch : Fetch) (s : Session)
    (op : Op) (h : op.isAuth = true) :
    op.run stringify fetch s = storeToken s (request stringify fetch s op.endpoint op.options) := by
  cases op <;> first | rfl | simp [Op.isAuth] at h

theorem storeToken_snd_of_not_stores (s : Session) (outcome : Except JsError JsVal)
    (h : storesToken outcome = false) : (storeToken s outcome).2 = s := by
  cases outcome with
  | error e => rfl
  | ok result =>
    simp only [storesToken] at h
    simp [storeToken, h]

theorem storeToken_snd_of_stores (s : Session) (result : JsVal)
    (h : storesToken (Except.ok result) = true) :
    (storeToken s (Except.ok result)).2 =
      ⟨result.getProp "token",
        match s.storage with
        | some st => some (st.set "authToken" (result.getProp "token").toStr)
        | none => none⟩ := by
  simp only [storesToken] at h
  simp [storeToken, h]

theorem restoreToken_storage (s : Session) : (restoreToken s).2.storage = s.storage := by
  unfold restoreToken
  split
  · split
    · split <;> rfl
    · rfl
  · rfl

theorem storage_of_not_writesStore (stringify : JsVal → String) (fetch : Fetch) (s : Session)
    (c : Call) (h : c.writesStore stringify fetch s = false) :
    (c.run stringify fetch s).2.storage = s.storage := by
  cases c with
  | domain op =>
    by_cases ha : op.isAuth = true
    · have hs : storesToken (op.run stringify fetch s).1 = false := by
        simpa [Call.writesStore, ha] using h
      have hrun := run_auth_eq_storeToken stringify fetch s op ha
      rw [hrun] at hs
      rw [storeToken_fst] at hs
      show (op.run stringify fetch s).2.storage = s.storage
      rw [hrun, storeToken_snd_of_not_stores s _ hs]
    · have ha2 : op.isAuth = false := by simpa using ha
      show (op.run stringify fetch s).2.storage = s.storage
      rw [run_snd_of_not_auth stringify fetch s op ha2]
  | restoreToken => exact restoreToken_storage s
  | clearToken => simp [Call.writesStore] at h
  | checkAuth =>
    simp only [Call.writesStore, checkAuth] at h
    simp only [Call.run, checkAuth]
    split
    · by_cases ht : s.token.truthy = true
      · simp [ht]
      · simp [ht, restoreToken_storage]
    · rename_i e heq
      rw [heq] at h
      simp at h

theorem storage_of_quiet (stringify : JsVal → String) (later : List (Call × Fetch)) :
    ∀ s : Session, quiet stringify s later = true →
      (runCalls stringify s later).storage = s.storage := by
  induction later with
  | nil => intro s _; rfl
  | cons step rest ih =>
    intro s h
    obtain ⟨c, fetch⟩ := step
    simp only [quiet, Bool.and_eq_true, Bool.not_eq_true'] at h
    simp only [runCalls]
    rw [ih _ h.2, storage_of_not_writesStore stringify fetch s c h.1]

theorem restoredToken_of_storage (s s' : Session) (h : s'.storage = s.storage) :
    restoredToken s' = restoredToken s := by
  simp [restoredToken, h]

theorem restoredToken_of_persisted_none (s : Session) (h : persistedToken s = none) :
    restoredToken s = JsVal.null := by
  unfold restoredToken restoreToken fresh
  unfold persistedToken at h
  cases hs : s.storage with
  | none => rfl
  | some st =>
    rw [hs] at h
    simp only at h
    simp [h]

theorem restoredToken_of_persisted_some (s : Session) (t : String)
    (h : persistedToken s = some t) (ht : t ≠ "") : restoredToken s = JsVal.str t := by
  unfold restoredToken restoreToken fresh
  unfold persistedToken at h
  cases hs : s.storage with
  | none => rw [hs] at h; simp at h
  | some st =>
    rw [hs] at h
    simp only at h
    simp [h, JsVal.truthy, ht]

theorem persistedToken_clearToken (s : Session) : persistedToken (clearToken s) = none := by
  unfold persistedToken clearToken
  cases s.storage with
  | none => rfl
  | some st => simp [Dict.get_erase_self]

theorem persistedToken_of_storage (s s' : Session) (h : s'.storage = s.storage) :
    persistedToken s' = persistedToken s := by
  simp [persistedToken, h]

theorem getProp_truthy_of_str (result : JsVal) (t : String)
    (h : result.getProp "token" = JsVal.str t) (ht : t ≠ "") :
    storesToken (Except.ok result) = true := by
  cases result with
  | obj fields => simp [storesToken, JsVal.truthy, h, ht]
  | _ => simp [JsVal.getProp] at h

/-- C2. A new service instance (in-memory token `null`) started over the storage
left by earlier calls holds, after `restoreToken()`, the token `t` when the most
recent write to the store was a `login` or `register` whose response carried the
non-empty string `t`, and holds `null` when the most recent write was `clearToken`
or when no credential was ever stored. The calls made since the last write
(`later`) are arbitrary calls that do not write the store. -/
theorem restore_yields_last_persisted (stringify : JsVal → String) :
    (∀ (s : Session) (fetch : Fetch) (op : Op) (result : JsVal) (t : String)
        (later : List (Call × Fetch)),
        s.storage.isSome = true → op.isAuth = true →
        (op.run stringify fetch s).1 = Except.ok result →
        result.getProp "token" = JsVal.str t → t ≠ "" →
        quiet stringify (op.run stringify fetch s).2 later = true →
        restoredToken (runCalls stringify (op.run stringify fetch s).2 later) = JsVal.str t) ∧
      (∀ (s : Session) (later : List (Call × Fetch)),
        quiet stringify (clearToken s) later = true →
        restoredToken (runCalls stringify (clearToken s) later) = JsVal.null) ∧
      (∀ (s : Session) (later : List (Call × Fetch)),
        persistedToken s = none → quiet stringify s later = true →
        restoredToken (runCalls stringify s later) = JsVal.null) := by
  refine ⟨?_, ?_, ?_⟩
  · intro s fetch op result t later hst hop hres htok ht hq
    rw [restoredToken_of_storage _ _ (storage_of_quiet stringify later _ hq)]
    apply restoredToken_of_persisted_some _ t _ ht
    have hrun := run_auth_eq_storeToken stringify fetch s op hop
    have hout : request stringify fetch s op.endpoint op.options = Except.ok result := by
      rw [← hres, hrun, storeToken_fst]
    rw [hrun, hout, storeToken_snd_of_stores s result (getProp_truthy_of_str result t htok ht)]
    cases hs : s.storage with
    | none => rw [hs] at hst; simp at hst
    | some st => simp [persistedToken, htok, JsVal.toStr, Dict.get_set_self]
  · intro s later hq
    rw [restoredToken_of_storage _ _ (storage_of_quiet stringify later _ hq)]
    exact restoredToken_of_persisted_none _ (persistedToken_clearToken s)
  · intro s later hnone hq
    rw [restoredToken_of_storage _ _ (storage_of_quiet stringify later _ hq)]
    exact restoredToken_of_persisted_none _ hnone

/-- Worked instance of C2: a login answered with the token `abc`, then a failed
article listing; a new instance restores `abc`. -/
theorem restore_yields_last_persisted_witness :
    (fresh (some [])).storage.isSome = true ∧
      (Op.login (JsVal.str "a@x.com") (JsVal.str "secret1")).isAuth = true ∧
      "abc" ≠ "" ∧
      restoredToken (runCalls sampleStringify
        ((Op.login (JsVal.str "a@x.com") (JsVal.str "secret1")).run sampleStringify
          (answering 200 (JsVal.obj [("token", JsVal.str "abc")])) (fresh (some []))).2
        [(Call.domain Op.getArticles, offline)]) = JsVal.str "abc" :=
  ⟨rfl, rfl, by decide,
    (restore_yields_last_persisted sampleStringify).1 (fresh (some []))
      (answering 200 (JsVal.obj [("token", JsVal.str "abc")]))
      (Op.login (JsVal.str "a@x.com") (JsVal.str "secret1"))
      (JsVal.obj [("token", JsVal.str "abc")]) "abc"
      [(Call.domain Op.getArticles, offline)] rfl rfl rfl rfl (by decide) rfl⟩

/-- C3 as stated fails where the environment offers no `localStorage`: the login
succeeds and returns the response, yet no token is persisted. -/
theorem login_without_storage_persists_nothing :
    (login sampleStringify (answering 200 (JsVal.obj [("token", JsVal.str "abc")]))
        (fresh none) (JsVal.str "a@x.com") (JsVal.str "secret1")).1 =
        Except.ok (JsVal.obj [("token", JsVal.str "abc")]) ∧
      persistedToken (login sampleStringify
        (answering 200 (JsVal.obj [("token", JsVal.str "abc")]))
        (fresh none) (JsVal.str "a@x.com") (JsVal.str "secret1")).2 ≠ some "abc" :=
  ⟨rfl, by decide⟩

/-- C3, amended. After a `login` or `register` that succeeds with a response
carrying a truthy token `t`, the in-memory token is `t`; where `localStorage`
is available the value persisted under `authToken` is the string form of `t`
(for a string token, `t` itself), whatever was held before, and where it is not
available nothing is persisted; the operation returns the response unchanged. -/
theorem login_register_store_token (stringify : JsVal → String) (fetch : Fetch)
    (s : Session) (op : Op) (result : JsVal)
    (hop : op.isAuth = true)
    (hres : request stringify fetch s op.endpoint op.options = Except.ok result)
    (ht : (result.getProp "token").truthy = true) :
    (op.run stringify fetch s).1 = Except.ok result ∧
      (op.run stringify fetch s).2.token = result.getProp "token" ∧
      (s.storage.isSome = true →
        persistedToken (op.run stringify fetch s).2 = some (result.getProp "token").toStr) ∧
      (s.storage = none → (op.run stringify fetch s).2.storage = none) ∧
      (∀ x : String, (JsVal.str x).toStr = x) := by
  have hrun := run_auth_eq_storeToken stringify fetch s op hop
  have hobj : result.truthy = true := by
    cases result with
    | obj fields => rfl
    | _ => simp [JsVal.getProp, JsVal.truthy] at ht
  have hstores : storesToken (Except.ok result) = true := by
    simp [storesToken, hobj, ht]
  rw [hrun, hres, storeToken_snd_of_stores s result hstores, storeToken_fst]
  refine ⟨rfl, rfl, ?_, ?_, fun _ => rfl⟩
  · intro hst
    cases hs : s.storage with
    | none => rw [hs] at hst; simp at hst
    | some st => simp [persistedToken, Dict.get_set_self]
  · intro hs
    simp [hs]

/-- Worked instance of C3: a registration answered with the token `abc` over a
store that held `old`. -/
theorem login_register_store_token_witness :
    (Op.register (JsVal.str "alice") (JsVal.str "a@x.com") (JsVal.str "secret1")).isAuth = true ∧
      ((Op.register (JsVal.str "alice") (JsVal.str "a@x.com") (JsVal.str "secret1")).run
          sampleStringify (answering 200 (JsVal.obj [("token", JsVal.str "abc")]))
          ⟨JsVal.str "old", some [("authToken", "old")]⟩).2.token = JsVal.str "abc" ∧
      persistedToken
        ((Op.register (JsVal.str "alice") (JsVal.str "a@x.com") (JsVal.str "secret1")).run
          sampleStringify (answering 200 (JsVal.obj [("token", JsVal.str "abc")]))
          ⟨JsVal.str "old", some [("authToken", "old")]⟩).2 = some "abc" :=
  have h := login_register_store_token sampleStringify
    (answering 200 (JsVal.obj [("token", JsVal.str "abc")]))
    ⟨JsVal.str "old", some [("authToken", "old")]⟩
    (Op.register (JsVal.str "alice") (JsVal.str "a@x.com") (JsVal.str "secret1"))
    (JsVal.obj [("token", JsVal.str "abc")]) rfl rfl rfl
  ⟨rfl, h.2.1, h.2.2.1 rfl⟩

/-- C4. After `clearToken()` the in-memory token is `null` and nothing is
persisted under `authToken`. -/
theorem clearToken_clears (s : Session) :
    (clearToken s).token = JsVal.null ∧ persistedToken (clearToken s) = none :=
  ⟨rfl, persistedToken_clearToken s⟩

/-- C5. Calling `clearToken()` twice leaves the session (in-memory token and
storage) as calling it once does. -/
theorem clearToken_idempotent (s : Session) : clearToken (clearToken s) = clearToken s := by
  unfold clearToken
  cases s.storage with
  | none => rfl
  | some st => simp [Dict.erase_erase]

/-- C6. `restoreToken()` returns `true` exactly when a token (a non-empty
string) is found under `authToken`, and the in-memory token then becomes that
string; otherwise it returns `false` and leaves the in-memory token as it was.
The storage is unchanged in both cases. -/
theorem restoreToken_spec (s : Session) :
    ((restoreToken s).1 = true ↔ ∃ t : String, persistedToken s = some t ∧ t ≠ "") ∧
      (∀ t : String, persistedToken s = some t → t ≠ "" →
        (restoreToken s).2.token = JsVal.str t) ∧
      ((restoreToken s).1 = false → (restoreToken s).2.token = s.token) ∧
      (restoreToken s).2.storage = s.storage := by
  refine ⟨?_, ?_, ?_, restoreToken_storage s⟩
  · unfold restoreToken persistedToken
    cases s.storage with
    | none => simp
    | some st =>
      cases hg : st.get "authToken" with
      | none => simp [hg]
      | some saved =>
        by_cases hne : saved = ""
        · simp [JsVal.truthy, hne, hg]
        · simp [JsVal.truthy, hne, hg]
  · intro t hp ht
    unfold restoreToken
    unfold persistedToken at hp
    cases hs : s.storage with
    | none => rw [hs] at hp; simp at hp
    | some st =>
      rw [hs] at hp
      simp only at hp
      simp [hp, JsVal.truthy, ht]
  · unfold restoreToken
    cases s.storage with
    | none => simp
    | some st =>
      cases hg : st.get "authToken" with
      | none => simp [hg]
      | some saved =>
        by_cases hne : saved = ""
        · simp [JsVal.truthy, hne, hg]
        · simp [JsVal.truthy, hne, hg]

/-- Worked instance of C6: a store holding `abc` is restored into a new instance. -/
theorem restoreToken_spec_witness :
    persistedToken (fresh (some [("authToken", "abc")])) = some "abc" ∧ "abc" ≠ "" ∧
      (restoreToken (fresh (some [("authToken", "abc")]))).2.token = JsVal.str "abc" :=
  ⟨rfl, by decide,
    (restoreToken_spec (fresh (some [("authToken", "abc")]))).2.1 "abc" rfl (by decide)⟩

theorem checkAuth_cases (stringify : JsVal → String) (fetch : Fetch) (s : Session) :
    (∃ r : JsVal, checkAuth stringify fetch s =
        (Except.ok r, if s.token.truthy then s else (restoreToken s).2)) ∨
      checkAuth stringify fetch s =
        (Except.error ⟨"Error", "Not authenticated"⟩,
          clearToken (if s.token.truthy then s else (restoreToken s).2)) := by
  unfold checkAuth
  cases hr : request stringify fetch (if s.token.truthy then s else (restoreToken s).2)
      "/users/profile" noOptions with
  | ok r => left; exact ⟨r, by simp [hr]⟩
  | error e => right; simp [hr]

/-- C7 as stated fails for `checkAuth`: with a stale token in memory and in the
store and a backend answering 401, the call is neither a login, a register nor
an explicit `clearToken`, yet both the in-memory and the persisted token are gone. -/
theorem checkAuth_failure_clears_credential :
    persistedToken ⟨JsVal.str "stale", some [("authToken", "stale")]⟩ = some "stale" ∧
      (Call.run sampleStringify (answering 401 JsVal.null)
        ⟨JsVal.str "stale", some [("authToken", "stale")]⟩ Call.checkAuth).2.token =
        JsVal.null ∧
      persistedToken (Call.run sampleStringify (answering 401 JsVal.null)
        ⟨JsVal.str "stale", some [("authToken", "stale")]⟩ Call.checkAuth).2 = none :=
  ⟨rfl, rfl, rfl⟩

/-- C7, amended. A call changes the session (in-memory token or storage) only
if it is a `login` or `register` whose response carried a token, `clearToken`,
`restoreToken` or `checkAuth`; every other operation, the profile fetch
`getCurrentUser` included, leaves it as it was whether it succeeds or fails.
`restoreToken` never writes the storage, and a `checkAuth` whose request
succeeds leaves the session as it was or as `restoreToken` made it. -/
theorem credential_changes_only_by (stringify : JsVal → String) (fetch : Fetch)
    (s : Session) (c : Call) :
    ((c.run stringify fetch s).2 ≠ s →
        (∃ op : Op, c = Call.domain op ∧ op.isAuth = true ∧
          storesToken (request stringify fetch s op.endpoint op.options) = true) ∨
        c = Call.clearToken ∨ c = Call.restoreToken ∨ c = Call.checkAuth) ∧
      (restoreToken s).2.storage = s.storage ∧
      (∀ response : JsVal, (checkAuth stringify fetch s).1 = Except.ok response →
        (checkAuth stringify fetch s).2 = if s.token.truthy then s else (restoreToken s).2) := by
  refine ⟨?_, restoreToken_storage s, ?_⟩
  · intro hne
    cases c with
    | domain op =>
      left
      by_cases ha : op.isAuth = true
      · refine ⟨op, rfl, ha, ?_⟩
        by_contra hs
        have hs2 : storesToken (request stringify fetch s op.endpoint op.options) = false := by
          simpa using hs
        apply hne
        show (op.run stringify fetch s).2 = s
        rw [run_auth_eq_storeToken stringify fetch s op ha]
        exact storeToken_snd_of_not_stores s _ hs2
      · exfalso
        apply hne
        exact run_snd_of_not_auth stringify fetch s op (by simpa using ha)
    | clearToken => exact Or.inr (Or.inl rfl)
    | restoreToken => exact Or.inr (Or.inr (Or.inl rfl))
    | checkAuth => exact Or.inr (Or.inr (Or.inr rfl))
  · intro response h
    rcases checkAuth_cases stringify fetch s with ⟨r, hc⟩ | hc
    · rw [hc]
    · rw [hc] at h
      simp at h

/-- Worked instance of C7: a login answered with a token changes the session. -/
theorem credential_changes_only_by_witness :
    (Call.run sampleStringify (answering 200 (JsVal.obj [("token", JsVal.str "abc")]))
        (fresh (some []))
        (Call.domain (Op.login (JsVal.str "a@x.com") (JsVal.str "secret1")))).2 ≠
        fresh (some []) ∧
      ((∃ op : Op, Call.domain (Op.login (JsVal.str "a@x.com") (JsVal.str "secret1")) =
            Call.domain op ∧ op.isAuth = true ∧
          storesToken (request sampleStringify
            (answering 200 (JsVal.obj [("token", JsVal.str "abc")])) (fresh (some []))
            op.endpoint op.options) = true) ∨
        Call.domain (Op.login (JsVal.str "a@x.com") (JsVal.str "secret1")) = Call.clearToken ∨
        Call.domain (Op.login (JsVal.str "a@x.com") (JsVal.str "secret1")) = Call.restoreToken ∨
        Call.domain (Op.login (JsVal.str "a@x.com") (JsVal.str "secret1")) = Call.checkAuth) :=
  have hne : (Call.run sampleStringify (answering 200 (JsVal.obj [("token", JsVal.str "abc")]))
      (fresh (some []))
      (Call.domain (Op.login (JsVal.str "a@x.com") (JsVal.str "secret1")))).2 ≠
      fresh (some []) :=
    fun h => absurd (congrArg persistedToken h) (by decide)
  ⟨hne, (credential_changes_only_by sampleStringify
    (answering 200 (JsVal.obj [("token", JsVal.str "abc")])) (fresh (some []))
    (Call.domain (Op.login (JsVal.str "a@x.com") (JsVal.str "secret1")))).1 hne⟩

/-! ## Request bodies and content type -/

/-- C8. A `FormData` body is handed to `fetch` unmodified, but when the caller
passes no headers (as `createArticle` does) the configuration still carries
`Content-Type: application/json`: the code keeps the body and misses the header. -/
theorem formData_body_keeps_json_content_type (stringify : JsVal → String) (token : JsVal)
    (method : Option String) (entries : List (String × JsVal)) :
    (buildConfig stringify token ⟨method, none, some (JsVal.formData entries)⟩).body =
        some (JsVal.formData entries) ∧
      (buildConfig stringify token ⟨method, none, some (JsVal.formData entries)⟩).headers.get
        "Content-Type" = some "application/json" := by
  constructor
  · simp [buildConfig, JsVal.isFormData]
  · by_cases h : token.truthy = true
    · simp only [buildConfig, h, if_true]
      rw [Dict.get_set_other _ _ _ _ (by decide)]
      rfl
    · simp [buildConfig, h, Dict.get]

/-- C9. A plain-object body is always replaced by its JSON serialization, and
without caller headers the configuration carries `Content-Type: application/json`;
with caller-supplied headers that do not name a content type the header is
lost, because the spread of `options` replaces the merged `headers` object. -/
theorem json_body_and_content_type (stringify : JsVal → String) (token : JsVal)
    (method : Option String) (fields : List (String × JsVal)) :
    (∀ headers : Option Dict,
        (buildConfig stringify token ⟨method, headers, some (JsVal.obj fields)⟩).body =
          some (JsVal.str (stringify (JsVal.obj fields)))) ∧
      (buildConfig stringify token ⟨method, none, some (JsVal.obj fields)⟩).headers.get
        "Content-Type" = some "application/json" ∧
      (buildConfig stringify token
        ⟨method, some [("Accept", "application/json")], some (JsVal.obj fields)⟩).headers.get
        "Content-Type" = none := by
  refine ⟨?_, ?_, ?_⟩
  · intro headers
    simp [buildConfig, JsVal.truthy, JsVal.isObject, JsVal.isFormData]
  · by_cases h : token.truthy = true
    · simp only [buildConfig, h, if_true]
      rw [Dict.get_set_other _ _ _ _ (by decide)]
      rfl
    · simp [buildConfig, h, Dict.get]
  · by_cases h : token.truthy = true
    · simp only [buildConfig, h, if_true]
      rw [Dict.get_set_other _ _ _ _ (by decide)]
      rfl
    · simp [buildConfig, h, Dict.get]

/-! ## HTTP errors -/

theorem digitChar_toNat : ∀ k, k < 10 → (Nat.digitChar k).toNat - 48 = k := by decide

theorem foldl_toDigitsCore (fuel : Nat) : ∀ (n : Nat) (ds : List Char), n < fuel →
    (Nat.toDigitsCore 10 fuel n ds).foldl digitStep 0 = ds.foldl digitStep n := by
  induction fuel with
  | zero => intro n ds h; omega
  | succ fuel ih =>
    intro n ds h
    unfold Nat.toDigitsCore
    by_cases h0 : n / 10 = 0
    · have hn : n < 10 := by omega
      simp only [h0, if_true, List.foldl_cons, digitStep]
      rw [digitChar_toNat _ (Nat.mod_lt _ (by decide)), Nat.mod_eq_of_lt hn]
      simp
    · simp only [h0, if_false]
      rw [ih (n / 10) _ (by omega)]
      simp only [List.foldl_cons, digitStep]
      rw [digitChar_toNat _ (Nat.mod_lt _ (by decide))]
      congr 1
      omega

theorem foldl_toString (n : Nat) : (toString n).data.foldl digitStep 0 = n := by
  show (Nat.repr n).data.foldl digitStep 0 = n
  unfold Nat.repr Nat.toDigits
  simp only [List.asString]
  rw [foldl_toDigitsCore (n + 1) n [] (by omega)]
  rfl

theorem statusOfMessage_httpErrorMessage (status : Nat) :
    statusOfMessage (httpErrorMessage status) = status := by
  unfold statusOfMessage httpErrorMessage
  rw [String.data_append, List.drop_append_of_le_length (by decide)]
  simp [foldl_toString]

/-- C10. When the response has a status outside 200-299, `request` returns no
value: it fails with an `Error` whose message is `HTTP error! status: `
followed by the decimal status. The status is read back from that message by
`statusOfMessage`, so different statuses give different errors. -/
theorem request_fails_outside_success_range (stringify : JsVal → String) (fetch : Fetch)
    (s : Session) (endpoint : String) (options : Options) (response : Response)
    (hfetch : fetch (API_BASE_URL ++ endpoint) (buildConfig stringify s.token options) =
      Except.ok response)
    (hstatus : response.status < 200 ∨ 299 < response.status) :
    request stringify fetch s endpoint options =
        Except.error ⟨"Error", "HTTP error! status: " ++ toString response.status⟩ ∧
      statusOfMessage ("HTTP error! status: " ++ toString response.status) = response.status ∧
      (∀ a b : Nat, httpErrorMessage a = httpErrorMessage b → a = b) := by
  refine ⟨?_, statusOfMessage_httpErrorMessage response.status, ?_⟩
  · have hok : response.ok = false := by
      unfold Response.ok
      rcases hstatus with h | h
      · simp [h]
      · simp [h]
    simp [request, hfetch, settle, hok, httpErrorMessage]
  · intro a b hab
    rw [← statusOfMessage_httpErrorMessage a, ← statusOfMessage_httpErrorMessage b, hab]

/-- Worked instance of C10: a backend answering 404. -/
theorem request_fails_outside_success_range_witness :
    (299 < (⟨404, Except.ok JsVal.null⟩ : Response).status) ∧
      request sampleStringify (answering 404 JsVal.null) (fresh none) "/articles/missing"
        noOptions = Except.error ⟨"Error", "HTTP error! status: 404"⟩ :=
  ⟨by decide,
    (request_fails_outside_success_range sampleStringify (answering 404 JsVal.null)
      (fresh none) "/articles/missing" noOptions ⟨404, Except.ok JsVal.null⟩ rfl
      (Or.inr (by decide))).1⟩

/-! ## The error channel and the parsed body -/

/-- C11 as stated fails: a transport failure is raised by `request` as the
transport's own error (here the `TypeError` thrown by `fetch`), while a
non-success status is raised as a plain `Error`; neither carries a status field. -/
theorem transport_error_is_rethrown_as_is :
    request sampleStringify offline (fresh none) "/articles" noOptions =
        Except.error ⟨"TypeError", "Network request failed"⟩ ∧
      request sampleStringify (answering 500 JsVal.null) (fresh none) "/articles" noOptions =
        Except.error ⟨"Error", "HTTP error! status: 500"⟩ ∧
      ("TypeError" : String) ≠ "Error" :=
  ⟨rfl, rfl, by decide⟩

/-- C11, amended. Every failure of `request` is re-raised unchanged through the
one error channel: the error thrown by the transport as it is, the error thrown
by the JSON parser as it is, and for a non-success status a plain `Error` whose
message is `HTTP error! status: ` followed by the status. -/
theorem request_rethrows_failures (stringify : JsVal → String) (fetch : Fetch)
    (s : Session) (endpoint : String) (options : Options) :
    (∀ e : JsError,
        fetch (API_BASE_URL ++ endpoint) (buildConfig stringify s.token options) =
          Except.error e →
        request stringify fetch s endpoint options = Except.error e) ∧
      (∀ (r : Response) (e : JsError),
        fetch (API_BASE_URL ++ endpoint) (buildConfig stringify s.token options) =
          Except.ok r →
        r.ok = true → r.json = Except.error e →
        request stringify fetch s endpoint options = Except.error e) ∧
      (∀ r : Response,
        fetch (API_BASE_URL ++ endpoint) (buildConfig stringify s.token options) =
          Except.ok r →
        r.ok = false →
        request stringify fetch s endpoint options =
          Except.error ⟨"Error", "HTTP error! status: " ++ toString r.status⟩) := by
  refine ⟨?_, ?_, ?_⟩
  · intro e h
    simp [request, h, settle]
  · intro r e h hok hjson
    simp [request, h, settle, hok, hjson]
  · intro r h hok
    simp [request, h, settle, hok, httpErrorMessage]

/-- Worked instance of C11: the error of an unreachable network comes back as it is. -/
theorem request_rethrows_failures_witness :
    offline (API_BASE_URL ++ "/articles")
        (buildConfig sampleStringify (fresh none).token noOptions) =
        Except.error ⟨"TypeError", "Network request failed"⟩ ∧
      request sampleStringify offline (fresh none) "/articles" noOptions =
        Except.error ⟨"TypeError", "Network request failed"⟩ :=
  ⟨rfl, (request_rethrows_failures sampleStringify offline (fresh none) "/articles"
    noOptions).1 ⟨"TypeError", "Network request failed"⟩ rfl⟩

/-- C12. When the response has a success status and its body parses as the
JSON value `v`, `request` returns `v` itself, whatever `v` is. -/
theorem request_returns_parsed_body (stringify : JsVal → String) (fetch : Fetch)
    (s : Session) (endpoint : String) (options : Options) (r : Response) (v : JsVal)
    (hfetch : fetch (API_BASE_URL ++ endpoint) (buildConfig stringify s.token options) =
      Except.ok r)
    (hstatus : 200 ≤ r.status ∧ r.status ≤ 299)
    (hjson : r.json = Except.ok v) :
    request stringify fetch s endpoint options = Except.ok v := by
  have hok : r.ok = true := by simp [Response.ok, hstatus.1, hstatus.2]
  simp [request, hfetch, settle, hok, hjson]

/-- Worked instance of C12: a backend answering 200 with a list of two numbers. -/
theorem request_returns_parsed_body_witness :
    (200 ≤ (⟨200, Except.ok (JsVal.arr [JsVal.num 1, JsVal.num 2])⟩ : Response).status ∧
        (⟨200, Except.ok (JsVal.arr [JsVal.num 1, JsVal.num 2])⟩ : Response).status ≤ 299) ∧
      request sampleStringify (answering 200 (JsVal.arr [JsVal.num 1, JsVal.num 2]))
        (fresh none) "/articles" noOptions =
        Except.ok (JsVal.arr [JsVal.num 1, JsVal.num 2]) :=
  ⟨by decide,
    request_returns_parsed_body sampleStringify
      (answering 200 (JsVal.arr [JsVal.num 1, JsVal.num 2])) (fresh none) "/articles"
      noOptions ⟨200, Except.ok (JsVal.arr [JsVal.num 1, JsVal.num 2])⟩
      (JsVal.arr [JsVal.num 1, JsVal.num 2]) rfl (by decide) rfl⟩

/-- C13. When the response has a success status and its body is not valid JSON,
`request` returns no value: it ends in its error result, with the error of the
parser, and every domain operation that made this request ends in the same
error and leaves the session as it was. -/
theorem request_unparseable_body (stringify : JsVal → String) (fetch : Fetch)
    (s : Session) (endpoint : String) (options : Options) (r : Response) (e : JsError)
    (hfetch : fetch (API_BASE_URL ++ endpoint) (buildConfig stringify s.token options) =
      Except.ok r)
    (hstatus : 200 ≤ r.status ∧ r.status ≤ 299)
    (hjson : r.json = Except.error e) :
    request stringify fetch s endpoint options = Except.error e ∧
      ∀ op : Op, op.endpoint = endpoint → op.options = options →
        op.run stringify fetch s = (Except.error e, s) := by
  have hok : r.ok = true := by simp [Response.ok, hstatus.1, hstatus.2]
  have hreq : request stringify fetch s endpoint options = Except.error e := by
    simp [request, hfetch, settle, hok, hjson]
  refine ⟨hreq, ?_⟩
  intro op hep hopt
  by_cases ha : op.isAuth = true
  · rw [run_auth_eq_storeToken stringify fetch s op ha, hep, hopt, hreq]
    rfl
  · have h1 := run_fst_eq_request stringify fetch s op
    have h2 := run_snd_of_not_auth stringify fetch s op (by simpa using ha)
    rw [hep, hopt, hreq] at h1
    exact Prod.ext h1 h2

/-- A network that answers 200 with a body that is not JSON. -/
theorem request_unparseable_body_witness :
    (200 ≤ (⟨200, Except.error ⟨"SyntaxError", "Unexpected token <"⟩⟩ : Response).status ∧
        (⟨200, Except.error ⟨"SyntaxError", "Unexpected token <"⟩⟩ : Response).status ≤ 299) ∧
      request sampleStringify
        (fun _ _ => Except.ok ⟨200, Except.error ⟨"SyntaxError", "Unexpected token <"⟩⟩)
        (fresh none) "/articles" noOptions =
        Except.error ⟨"SyntaxError", "Unexpected token <"⟩ :=
  ⟨by decide,
    (request_unparseable_body sampleStringify
      (fun _ _ => Except.ok ⟨200, Except.error ⟨"SyntaxError", "Unexpected token <"⟩⟩)
      (fresh none) "/articles" noOptions
      ⟨200, Except.error ⟨"SyntaxError", "Unexpected token <"⟩⟩
      ⟨"SyntaxError", "Unexpected token <"⟩ rfl (by decide) rfl).1⟩

/-! ## The operation catalog -/

theorem endpoint_options_of_catalogRow (op : Op) (row : Row) (h : catalogRow op = some row) :
    op.endpoint = row.path ∧ op.options = ⟨row.method, none, row.body⟩ := by
  cases op <;> simp only [catalogRow, Option.some.injEq] at h <;>
    first
      | (subst h; exact ⟨rfl, rfl⟩)
      | exact absurd h (by simp)

/-- C14. Every operation listed in the interface table issues one request: its
URL is the fixed base followed by the path of the row (the slug inserted as it
is), its method is the method of the row (none named for a GET row), its body
is the body of the row, and the operation passes no headers of its own. -/
theorem operation_issues_catalog_row (stringify : JsVal → String) (fetch : Fetch)
    (s : Session) (op : Op) (row : Row) (h : catalogRow op = some row) :
    (op.run stringify fetch s).1 =
        settle (fetch ("http://192.168.1.3:5000/api" ++ row.path)
          (buildConfig stringify s.token ⟨row.method, none, row.body⟩)) ∧
      (buildConfig stringify s.token ⟨row.method, none, row.body⟩).method = row.method := by
  obtain ⟨hep, hopt⟩ := endpoint_options_of_catalogRow op row h
  refine ⟨?_, rfl⟩
  rw [run_fst_eq_request, hep, hopt]
  rfl

/-- Worked instance of C14: `addComment` on the article `hello-world`. -/
theorem operation_issues_catalog_row_witness :
    catalogRow (Op.addComment (JsVal.str "hello-world") (JsVal.str "nice")) =
        some ⟨some "POST", "/articles/hello-world/comments",
          some (JsVal.obj [("text", JsVal.str "nice")])⟩ ∧
      ((Op.addComment (JsVal.str "hello-world") (JsVal.str "nice")).run sampleStringify
          offline (fresh none)).1 =
        settle (offline "http://192.168.1.3:5000/api/articles/hello-world/comments"
          (buildConfig sampleStringify (fresh none).token
            ⟨some "POST", none, some (JsVal.obj [("text", JsVal.str "nice")])⟩)) :=
  ⟨rfl,
    (operation_issues_catalog_row sampleStringify offline (fresh none)
      (Op.addComment (JsVal.str "hello-world") (JsVal.str "nice"))
      ⟨some "POST", "/articles/hello-world/comments",
        some (JsVal.obj [("text", JsVal.str "nice")])⟩ rfl).1⟩

/-! ## Propagation of errors -/

/-- C15 as stated fails for `checkAuth`: its profile request fails with the
error of the transport, and `checkAuth` fails with a new error instead. -/
theorem checkAuth_replaces_error :
    request sampleStringify offline ⟨JsVal.str "abc", none⟩ "/users/profile" noOptions =
        Except.error ⟨"TypeError", "Network request failed"⟩ ∧
      (checkAuth sampleStringify offline ⟨JsVal.str "abc", none⟩).1 =
        Except.error ⟨"Error", "Not authenticated"⟩ :=
  ⟨rfl, rfl⟩

/-- C15, amended. When the request of a domain operation fails with the error
`e`, the operation fails with `e` itself; `checkAuth` is the exception: when
its profile request fails, with whatever error, it fails with a new `Error`
whose message is `Not authenticated`. -/
theorem operation_propagates_error (stringify : JsVal → String) (fetch : Fetch)
    (s : Session) (op : Op) (e : JsError)
    (h : request stringify fetch s op.endpoint op.options = Except.error e) :
    (op.run stringify fetch s).1 = Except.error e ∧
      (∀ e2 : JsError, (checkAuth stringify fetch s).1 = Except.error e2 →
        e2 = ⟨"Error", "Not authenticated"⟩) := by
  refine ⟨?_, ?_⟩
  · rw [run_fst_eq_request, h]
  · intro e2 h2
    rcases checkAuth_cases stringify fetch s with ⟨r, hc⟩ | hc
    · rw [hc] at h2
      simp at h2
    · rw [hc] at h2
      simp only [Except.error.injEq] at h2
      exact h2.symm

/-- Worked instance of C15: `getArticles` on an unreachable network. -/
theorem operation_propagates_error_witness :
    request sampleStringify offline (fresh none) Op.getArticles.endpoint
        Op.getArticles.options = Except.error ⟨"TypeError", "Network request failed"⟩ ∧
      (Op.getArticles.run sampleStringify offline (fresh none)).1 =
        Except.error ⟨"TypeError", "Network request failed"⟩ :=
  ⟨rfl, (operation_propagates_error sampleStringify offline (fresh none) Op.getArticles
    ⟨"TypeError", "Network request failed"⟩ rfl).1⟩

end ApiService

/-! ## The screens -/

namespace ApiService

theorem invoke_domain_of_not_auth (stringify : JsVal → String) (fetch : Fetch) (w : World)
    (op : Op) (h : op.isAuth = false) :
    invoke stringify fetch w (Call.domain op) =
      (request stringify fetch w.session op.endpoint op.options,
        ⟨w.session, w.calls ++ [Call.domain op]⟩) := by
  unfold invoke
  simp only [Call.run]
  rw [run_fst_eq_request, run_snd_of_not_auth stringify fetch w.session op h]

end ApiService

namespace JsVal

theorem or_num_zero (n : Nat) : (num n).or (num 0) = num n := by
  unfold JsVal.or truthy
  by_cases h : n = 0
  · subst h
    simp
  · have h2 : (n : Int) ≠ 0 := by exact_mod_cast h
    simp [h2]

end JsVal

namespace ProfileScreen

open ApiService

theorem loadUserStatistics_session (stringify : JsVal → String) (fetch : Fetch) (user : JsVal)
    (w : World) (v : View) :
    (loadUserStatistics stringify fetch user w v).1.session = w.session := by
  unfold loadUserStatistics
  simp only [invoke_domain_of_not_auth stringify fetch _ _ (rfl : Op.getUserArticles.isAuth = false),
    invoke_domain_of_not_auth stringify fetch _ _ (rfl : Op.getUserLikes.isAuth = false),
    invoke_domain_of_not_auth stringify fetch _ _ (rfl : Op.getUserComments.isAuth = false),
    invoke_domain_of_not_auth stringify fetch _ _ (rfl : Op.getFavoriteArticles.isAuth = false)]
  repeat' split
  all_goals rfl

/-- C16. `loadUserData` never changes the session, whatever the backend
answers: when the profile fetch receives 401 its handler sets the displayed
user to `null` and the stale token stays in memory and in the storage. -/
theorem loadUserData_keeps_credential (stringify : JsVal → String) (fetch : Fetch)
    (user : JsVal) (w : World) (v : View) :
    (loadUserData stringify fetch user w v).1.session = w.session ∧
      (loadUserData stringify (answering 401 JsVal.null) user w v).2.user = JsVal.null ∧
      (loadUserData sampleStringify (answering 401 JsVal.null) JsVal.null
          ⟨⟨JsVal.str "stale", some [("authToken", "stale")]⟩, []⟩ v).1.session.token =
        JsVal.str "stale" ∧
      persistedToken (loadUserData sampleStringify (answering 401 JsVal.null) JsVal.null
          ⟨⟨JsVal.str "stale", some [("authToken", "stale")]⟩, []⟩ v).1.session =
        some "stale" := by
  have hsession : ∀ (st : JsVal → String) (f : Fetch) (u : JsVal) (w0 : World) (v0 : View),
      (loadUserData st f u w0 v0).1.session = w0.session := by
    intro st f u w0 v0
    unfold loadUserData
    simp only [invoke_domain_of_not_auth st f _ _ (rfl : Op.getCurrentUser.isAuth = false)]
    split
    · simp only [loadUserStatistics_session]
    · split <;> rfl
  refine ⟨hsession _ _ _ _ _, ?_, ?_, ?_⟩
  · unfold loadUserData
    simp only [invoke_domain_of_not_auth _ _ _ _ (rfl : Op.getCurrentUser.isAuth = false)]
    have hreq : request stringify (answering 401 JsVal.null) w.session Op.getCurrentUser.endpoint
        Op.getCurrentUser.options = Except.error ⟨"Error", "HTTP error! status: 401"⟩ := rfl
    rw [hreq]
    rfl
  · rw [hsession]
  · rw [hsession]
    rfl

end ProfileScreen

namespace ProfileScreen

open ApiService

/-- C20. `loadUserStatistics` calls `getUserArticles`, `getUserLikes`,
`getUserComments` and `getFavoriteArticles` in this order, each after the
previous one has returned: when the first request fails no other is made, and
when the four requests return lists the four counts are the lengths of the lists. -/
theorem loadUserStatistics_counts (stringify : JsVal → String) (fetch : Fetch)
    (user : JsVal) (w : World) (v : View) :
    (∀ a1 a2 a3 a4 : List JsVal,
        request stringify fetch w.session "/users/articles" noOptions =
          Except.ok (JsVal.arr a1) →
        request stringify fetch w.session "/users/likes" noOptions =
          Except.ok (JsVal.arr a2) →
        request stringify fetch w.session "/users/comments" noOptions =
          Except.ok (JsVal.arr a3) →
        request stringify fetch w.session "/users/favorites" noOptions =
          Except.ok (JsVal.arr a4) →
        (loadUserStatistics stringify fetch user w v).1.calls =
            w.calls ++ [Call.domain Op.getUserArticles, Call.domain Op.getUserLikes,
              Call.domain Op.getUserComments, Call.domain Op.getFavoriteArticles] ∧
          (loadUserStatistics stringify fetch user w v).2.stats =
            ⟨JsVal.num a1.length, JsVal.num a2.length, JsVal.num a3.length,
              JsVal.num a4.length⟩) ∧
      (∀ e : JsError,
        request stringify fetch w.session "/users/articles" noOptions = Except.error e →
        (loadUserStatistics stringify fetch user w v).1.calls =
          w.calls ++ [Call.domain Op.getUserArticles]) ∧
      (∃ k : Nat, 1 ≤ k ∧
        (loadUserStatistics stringify fetch user w v).1.calls =
          w.calls ++ List.take k [Call.domain Op.getUserArticles, Call.domain Op.getUserLikes,
            Call.domain Op.getUserComments, Call.domain Op.getFavoriteArticles]) := by
  have e1 := invoke_domain_of_not_auth stringify fetch
  refine ⟨?_, ?_, ?_⟩
  · intro a1 a2 a3 a4 h1 h2 h3 h4
    unfold loadUserStatistics
    simp only [e1 _ _ (rfl : Op.getUserArticles.isAuth = false),
      e1 _ _ (rfl : Op.getUserLikes.isAuth = false),
      e1 _ _ (rfl : Op.getUserComments.isAuth = false),
      e1 _ _ (rfl : Op.getFavoriteArticles.isAuth = false)]
    have g1 : request stringify fetch w.session Op.getUserArticles.endpoint
        Op.getUserArticles.options = Except.ok (JsVal.arr a1) := h1
    have g2 : request stringify fetch w.session Op.getUserLikes.endpoint
        Op.getUserLikes.options = Except.ok (JsVal.arr a2) := h2
    have g3 : request stringify fetch w.session Op.getUserComments.endpoint
        Op.getUserComments.options = Except.ok (JsVal.arr a3) := h3
    have g4 : request stringify fetch w.session Op.getFavoriteArticles.endpoint
        Op.getFavoriteArticles.options = Except.ok (JsVal.arr a4) := h4
    simp only [g1, g2, g3, g4, Except.bind, JsVal.lengthOf, JsVal.or_num_zero]
    simp
  · intro e h
    unfold loadUserStatistics
    simp only [e1 _ _ (rfl : Op.getUserArticles.isAuth = false)]
    have g1 : request stringify fetch w.session Op.getUserArticles.endpoint
        Op.getUserArticles.options = Except.error e := h
    simp only [g1, Except.bind]
  · unfold loadUserStatistics
    simp only [e1 _ _ (rfl : Op.getUserArticles.isAuth = false),
      e1 _ _ (rfl : Op.getUserLikes.isAuth = false),
      e1 _ _ (rfl : Op.getUserComments.isAuth = false),
      e1 _ _ (rfl : Op.getFavoriteArticles.isAuth = false)]
    split
    · exact ⟨1, le_refl 1, by simp⟩
    · split
      · exact ⟨2, by decide, by simp⟩
      · split
        · exact ⟨3, by decide, by simp⟩
        · split
          · exact ⟨4, by decide, by simp⟩
          · exact ⟨4, by decide, by simp⟩

/-- Worked instance of C20: lists of 2, 0, 1 and 3 elements. -/
theorem loadUserStatistics_counts_witness :
    request sampleStringify listsBackend (fresh none) "/users/articles" noOptions =
        Except.ok (JsVal.arr [JsVal.null, JsVal.null]) ∧
      (loadUserStatistics sampleStringify listsBackend JsVal.null ⟨fresh none, []⟩
        ⟨JsVal.null, true, ⟨JsVal.num 0, JsVal.num 0, JsVal.num 0, JsVal.num 0⟩⟩).2.stats =
      ⟨JsVal.num 2, JsVal.num 0, JsVal.num 1, JsVal.num 3⟩ :=
  ⟨rfl, ((loadUserStatistics_counts sampleStringify listsBackend JsVal.null ⟨fresh none, []⟩
    ⟨JsVal.null, true, ⟨JsVal.num 0, JsVal.num 0, JsVal.num 0, JsVal.num 0⟩⟩).1
    [JsVal.null, JsVal.null] [] [JsVal.null] [JsVal.null, JsVal.null, JsVal.null]
    rfl rfl rfl rfl).2⟩

end ProfileScreen

namespace ApiService

theorem restoreToken_truthy (s : Session) (h : (restoreToken s).1 = true) :
    (restoreToken s).2.token.truthy = true := by
  unfold restoreToken at h ⊢
  cases hs : s.storage with
  | none => simp [hs] at h
  | some st =>
    cases hg : st.get "authToken" with
    | none => simp [hs, hg] at h
    | some saved =>
      by_cases ht : (JsVal.str saved).truthy = true
      · simp [hg, ht]
      · simp [hs, hg, ht] at h

theorem checkAuth_of_truthy (stringify : JsVal → String) (fetch : Fetch) (s : Session)
    (h : s.token.truthy = true) :
    checkAuth stringify fetch s =
      match request stringify fetch s "/users/profile" noOptions with
      | Except.ok response => (Except.ok response, s)
      | Except.error _ => (Except.error ⟨"Error", "Not authenticated"⟩, clearToken s) := by
  unfold checkAuth
  simp [h]

end ApiService

namespace App

open ApiService

/-- C17 as stated fails: a failure that is not an authentication failure (here
the status 500, and an unreachable network) leaves neither the in-memory nor
the persisted token as it was. -/
theorem server_error_clears_credential :
    persistedToken ⟨JsVal.str "abc", some [("authToken", "abc")]⟩ = some "abc" ∧
      (checkAuth sampleStringify (answering 500 JsVal.null)
        ⟨JsVal.str "abc", some [("authToken", "abc")]⟩).2.token = JsVal.null ∧
      persistedToken (checkAuth sampleStringify (answering 500 JsVal.null)
        ⟨JsVal.str "abc", some [("authToken", "abc")]⟩).2 = none ∧
      persistedToken (checkAuthStatus sampleStringify offline
        ⟨fresh (some [("authToken", "abc")]), []⟩ ⟨false, false⟩).1.session = none :=
  ⟨rfl, rfl, rfl, rfl⟩

/-- C17, amended. The stored credential is cleared on every failure of the auth
check, whatever its cause: when `checkAuth` fails the in-memory token is `null`
and nothing is persisted, and so it is after `checkAuthStatus` whenever a token
was restored and the launch check ends logged out. -/
theorem auth_check_failure_clears (stringify : JsVal → String) (fetch : Fetch)
    (s : Session) :
    (∀ e : JsError, (checkAuth stringify fetch s).1 = Except.error e →
        (checkAuth stringify fetch s).2.token = JsVal.null ∧
          persistedToken (checkAuth stringify fetch s).2 = none) ∧
      (∀ (calls : List Call) (a : State), (restoreToken s).1 = true →
        (checkAuthStatus stringify fetch ⟨s, calls⟩ a).2.isLoggedIn = false →
        (checkAuthStatus stringify fetch ⟨s, calls⟩ a).1.session.token = JsVal.null ∧
          persistedToken (checkAuthStatus stringify fetch ⟨s, calls⟩ a).1.session = none) := by
  refine ⟨?_, ?_⟩
  · intro e h
    rcases checkAuth_cases stringify fetch s with ⟨r, hc⟩ | hc
    · rw [hc] at h
      simp at h
    · rw [hc]
      exact ⟨rfl, persistedToken_clearToken _⟩
  · intro calls a hr hlog
    have ht := restoreToken_truthy s hr
    unfold checkAuthStatus at hlog ⊢
    simp only [invoke, Call.run, hr, JsVal.truthy, if_true,
      checkAuth_of_truthy stringify fetch _ ht] at hlog ⊢
    cases hreq : request stringify fetch (restoreToken s).2 "/users/profile" noOptions with
    | ok response => simp [hreq] at hlog
    | error e =>
      simp only []
      exact ⟨rfl, persistedToken_clearToken _⟩

/-- Worked instance of C17: the launch check against a backend answering 500. -/
theorem auth_check_failure_clears_witness :
    (checkAuth sampleStringify (answering 500 JsVal.null)
        (fresh (some [("authToken", "abc")]))).1 =
        Except.error ⟨"Error", "Not authenticated"⟩ ∧
      persistedToken (checkAuth sampleStringify (answering 500 JsVal.null)
        (fresh (some [("authToken", "abc")]))).2 = none :=
  ⟨rfl, ((auth_check_failure_clears sampleStringify (answering 500 JsVal.null)
    (fresh (some [("authToken", "abc")]))).1 ⟨"Error", "Not authenticated"⟩ rfl).2⟩

/-- C18. `checkAuthStatus` calls `restoreToken` first, before `checkAuth` issues
its request; it always ends with `appReady = true`; and it ends with
`isLoggedIn = true` exactly when `restoreToken` found a token and the profile
request made with the restored token succeeded, with `isLoggedIn = false`
otherwise. -/
theorem checkAuthStatus_spec (stringify : JsVal → String) (fetch : Fetch) (w : World)
    (a : State) :
    (checkAuthStatus stringify fetch w a).1.calls =
        w.calls ++
          (if (restoreToken w.session).1 then
            (if (request stringify fetch (restoreToken w.session).2 "/users/profile"
                noOptions).isOk then
              [Call.restoreToken, Call.checkAuth]
            else [Call.restoreToken, Call.checkAuth, Call.clearToken])
          else [Call.restoreToken]) ∧
      (checkAuthStatus stringify fetch w a).2.appReady = true ∧
      (checkAuthStatus stringify fetch w a).2.isLoggedIn =
        ((restoreToken w.session).1 &&
          (request stringify fetch (restoreToken w.session).2 "/users/profile"
            noOptions).isOk) := by
  cases hr : (restoreToken w.session).1 with
  | false =>
    unfold checkAuthStatus
    simp [invoke, Call.run, hr, JsVal.truthy]
  | true =>
    have ht := restoreToken_truthy w.session hr
    unfold checkAuthStatus
    simp only [invoke, Call.run, hr, JsVal.truthy, if_true,
      checkAuth_of_truthy stringify fetch _ ht]
    cases hreq : request stringify fetch (restoreToken w.session).2 "/users/profile"
        noOptions with
    | ok response => simp [Except.isOk, Except.toBool]
    | error e => simp [Except.isOk, Except.toBool]

end App

namespace AddArticleScreen

open ApiService

/-- C19 as stated fails: an article submitted with a captured photo is sent as
the JSON serialization of a plain object whose field `photo` is the URI of the
image; the body is not a multipart payload. -/
theorem photo_is_sent_as_json :
    (handleSubmit sampleStringify (answering 201 (JsVal.obj []))
        ⟨fresh none, []⟩
        ⟨"T", "C", "news", JsVal.null, JsVal.str "file:///photo.jpg", false⟩).1.calls =
        [Call.domain (Op.createArticle (JsVal.obj [("title", JsVal.str "T"),
          ("content", JsVal.str "C"), ("category", JsVal.str "news"),
          ("location_lat", JsVal.null), ("location_lng", JsVal.null),
          ("photo", JsVal.str "file:///photo.jpg")]))] ∧
      (buildConfig sampleStringify JsVal.null
        (Op.createArticle (articleData
          ⟨"T", "C", "news", JsVal.null, JsVal.str "file:///photo.jpg", false⟩)).options).body =
        some (JsVal.str (sampleStringify (articleData
          ⟨"T", "C", "news", JsVal.null, JsVal.str "file:///photo.jpg", false⟩))) ∧
      (articleData
        ⟨"T", "C", "news", JsVal.null, JsVal.str "file:///photo.jpg", false⟩).isFormData =
        false :=
  ⟨rfl, rfl, rfl⟩

/-- C19, amended. An article submitted from the form with a non-blank title and
content, with or without a captured photo, is sent by one `createArticle` call
whose body is the JSON serialization of the plain object `articleData`; its
field `photo` is the URI of the image or `null`. Every operation whose body is
a plain object sends its JSON serialization. -/
theorem handleSubmit_sends_json (stringify : JsVal → String) (fetch : Fetch) (w : World)
    (f : Form) (htitle : jsTrim f.title ≠ "") (hcontent : jsTrim f.content ≠ "") :
    (handleSubmit stringify fetch w f).1.calls =
        w.calls ++ [Call.domain (Op.createArticle (articleData f))] ∧
      (buildConfig stringify w.session.token (Op.createArticle (articleData f)).options).body =
        some (JsVal.str (stringify (articleData f))) ∧
      (articleData f).getProp "photo" = f.image.or JsVal.null ∧
      (∀ (op : Op) (fields : List (String × JsVal)) (token : JsVal),
        op.options.body = some (JsVal.obj fields) →
        (buildConfig stringify token op.options).body =
          some (JsVal.str (stringify (JsVal.obj fields)))) := by
  refine ⟨?_, rfl, ?_, ?_⟩
  · have hguard : (!(JsVal.str (jsTrim f.title)).truthy ||
        !(JsVal.str (jsTrim f.content)).truthy) = false := by
      simp [JsVal.truthy, htitle, hcontent]
    unfold handleSubmit
    rw [hguard]
    simp only [Bool.false_eq_true, if_false]
    split <;> rfl
  · simp [articleData, JsVal.getProp, JsVal.lookupField]
  · intro op fields token h
    simp [buildConfig, h, JsVal.truthy, JsVal.isObject, JsVal.isFormData]

/-- Worked instance of C19: the article `T` with a captured photo. -/
theorem handleSubmit_sends_json_witness :
    jsTrim "T" ≠ "" ∧ jsTrim " C " ≠ "" ∧
      (articleData ⟨"T", " C ", "news", JsVal.null, JsVal.str "file:///photo.jpg",
        false⟩).getProp "photo" = JsVal.str "file:///photo.jpg" :=
  ⟨by decide, by decide,
    (handleSubmit_sends_json sampleStringify offline ⟨fresh none, []⟩
      ⟨"T", " C ", "news", JsVal.null, JsVal.str "file:///photo.jpg", false⟩
      (by decide) (by decide)).2.2.1⟩

end AddArticleScreen

/-! ## The forms -/

/-- C21. Each submit handler leaves the world and the form exactly as they were,
so that no request is issued, when a required field is empty after trimming:
email or password for `handleLogin`, title or content for `handleSubmit`, the
comment text for `handleAddComment`. With the fields filled `handleLogin` does
call `login`, with the trimmed fields. -/
theorem submit_handlers_guard_required_fields (stringify : JsVal → String)
    (fetch : ApiService.Fetch) (w : ApiService.World) :
    (∀ f : LoginScreen.Form, jsTrim f.email = "" ∨ jsTrim f.password = "" →
        LoginScreen.handleLogin stringify fetch w f =
          (w, f, LoginScreen.Outcome.notSubmitted)) ∧
      (∀ f : AddArticleScreen.Form, jsTrim f.title = "" ∨ jsTrim f.content = "" →
        AddArticleScreen.handleSubmit stringify fetch w f = (w, f)) ∧
      (∀ (slug : JsVal) (v : ArticleScreen.View), jsTrim v.newComment = "" →
        ArticleScreen.handleAddComment stringify fetch slug w v = (w, v)) ∧
      (∀ f : LoginScreen.Form, jsTrim f.email ≠ "" → jsTrim f.password ≠ "" →
        (LoginScreen.handleLogin stringify fetch w f).1.calls =
          w.calls ++ [ApiService.Call.domain (ApiService.Op.login
            (JsVal.str (jsTrim f.email)) (JsVal.str (jsTrim f.password)))]) := by
  refine ⟨?_, ?_, ?_, ?_⟩
  · intro f h
    rcases h with h | h <;> simp [LoginScreen.handleLogin, JsVal.truthy, h]
  · intro f h
    rcases h with h | h <;> simp [AddArticleScreen.handleSubmit, JsVal.truthy, h]
  · intro slug v h
    simp [ArticleScreen.handleAddComment, JsVal.truthy, h]
  · intro f he hp
    have hguard : (!(JsVal.str (jsTrim f.email)).truthy ||
        !(JsVal.str (jsTrim f.password)).truthy) = false := by
      simp [JsVal.truthy, he, hp]
    unfold LoginScreen.handleLogin
    rw [hguard]
    simp only [Bool.false_eq_true, if_false]
    split
    · split <;> rfl
    · rfl

/-- Worked instance of C21: a login form whose email is blank. -/
theorem submit_handlers_guard_required_fields_witness :
    jsTrim "  " = "" ∧
      LoginScreen.handleLogin ApiService.sampleStringify ApiService.offline
        ⟨ApiService.fresh none, []⟩ ⟨"  ", "secret1", false⟩ =
        (⟨ApiService.fresh none, []⟩, ⟨"  ", "secret1", false⟩,
          LoginScreen.Outcome.notSubmitted) :=
  ⟨by decide,
    (submit_handlers_guard_required_fields ApiService.sampleStringify ApiService.offline
      ⟨ApiService.fresh none, []⟩).1 ⟨"  ", "secret1", false⟩ (Or.inl (by decide))⟩

namespace RegisterScreen

open ApiService

/-- C27. The length check reads the password as typed and `register` receives
the trimmed password: a password of three letters and three blanks passes the
check, and `register` is called with the three letters. -/
theorem short_trimmed_password_is_sent :
    (handleRegister sampleStringify offline ⟨fresh none, []⟩
        ⟨"alice", "a@x.com", "abc   ", "abc   ", false⟩).1.calls =
        [Call.domain (Op.register (JsVal.str "alice") (JsVal.str "a@x.com")
          (JsVal.str "abc"))] ∧
      JsVal.utf16Length "abc   " = 6 ∧ JsVal.utf16Length "abc" = 3 :=
  ⟨rfl, rfl, rfl⟩

end RegisterScreen

namespace AddArticleScreen

open ApiService

/-- C28. For a captured location the article data of both screens carries the
latitude and the longitude, except that a coordinate equal to 0 is replaced by
`null`, as if no location were set. -/
theorem zero_coordinate_becomes_null (title content category : String) (image : JsVal)
    (lat lng : Int) :
    (articleData ⟨title, content, category,
        JsVal.obj [("lat", JsVal.num lat), ("lng", JsVal.num lng)], image, false⟩).getProp
        "location_lat" = (if lat = 0 then JsVal.null else JsVal.num lat) ∧
      (articleData ⟨title, content, category,
        JsVal.obj [("lat", JsVal.num lat), ("lng", JsVal.num lng)], image, false⟩).getProp
        "location_lng" = (if lng = 0 then JsVal.null else JsVal.num lng) ∧
      (EditArticleScreen.articleData ⟨title, content, category,
        JsVal.obj [("lat", JsVal.num lat), ("lng", JsVal.num lng)], false⟩).getProp
        "location_lat" = (if lat = 0 then JsVal.null else JsVal.num lat) ∧
      (EditArticleScreen.articleData ⟨title, content, category,
        JsVal.obj [("lat", JsVal.num lat), ("lng", JsVal.num lng)], false⟩).getProp
        "location_lng" = (if lng = 0 then JsVal.null else JsVal.num lng) ∧
      (articleData ⟨"T", "C", "news",
        JsVal.obj [("lat", JsVal.num 0), ("lng", JsVal.num 37)], JsVal.null, false⟩).getProp
        "location_lat" = JsVal.null := by
  refine ⟨?_, ?_, ?_, ?_, rfl⟩
  · by_cases h : lat = 0 <;>
      simp [articleData, JsVal.getProp, JsVal.lookupField, JsVal.optChain, JsVal.or,
        JsVal.truthy, h]
  · by_cases h : lng = 0 <;>
      simp [articleData, JsVal.getProp, JsVal.lookupField, JsVal.optChain, JsVal.or,
        JsVal.truthy, h]
  · by_cases h : lat = 0 <;>
      simp [EditArticleScreen.articleData, JsVal.getProp, JsVal.lookupField, JsVal.optChain,
        JsVal.or, JsVal.truthy, h]
  · by_cases h : lng = 0 <;>
      simp [EditArticleScreen.articleData, JsVal.getProp, JsVal.lookupField, JsVal.optChain,
        JsVal.or, JsVal.truthy, h]

end AddArticleScreen

/-! ## Reachable sessions -/

namespace ApiService

theorem restoreToken_cases (s : Session) :
    (restoreToken s).2 = s ∨
      ∃ saved : String, (JsVal.str saved).truthy = true ∧ persistedToken s = some saved ∧
        (restoreToken s).2 = ⟨JsVal.str saved, s.storage⟩ := by
  unfold restoreToken persistedToken
  cases hs : s.storage with
  | none => left; rfl
  | some st =>
    cases hg : st.get "authToken" with
    | none => left; simp [hg]
    | some saved =>
      by_cases ht : (JsVal.str saved).truthy = true
      · right
        exact ⟨saved, ht, by simp [hg], by simp [hg, ht]⟩
      · left
        simp [hg, ht]

theorem consistent_restoreToken (s : Session) (hs : Consistent s) :
    Consistent (restoreToken s).2 := by
  rcases restoreToken_cases s with h | ⟨saved, ht, hp, h⟩
  · rw [h]
    exact hs
  · rw [h]
    refine ⟨hs.1, Or.inr ⟨ht, ?_⟩⟩
    have hsame : persistedToken ⟨JsVal.str saved, s.storage⟩ = persistedToken s :=
      persistedToken_of_storage s _ rfl
    rw [hsame, hp]
    rfl

theorem consistent_clearToken (s : Session) (hs : s.storage.isSome = true) :
    Consistent (clearToken s) := by
  obtain ⟨st, hst⟩ := Option.isSome_iff_exists.mp hs
  exact ⟨by simp [clearToken, hst], Or.inl rfl⟩

theorem consistent_after_call (stringify : JsVal → String) (fetch : Fetch) (s : Session)
    (c : Call) (hs : Consistent s) : Consistent (c.run stringify fetch s).2 := by
  cases c with
  | domain op =>
    show Consistent (op.run stringify fetch s).2
    by_cases ha : op.isAuth = true
    · rw [run_auth_eq_storeToken stringify fetch s op ha]
      cases hreq : request stringify fetch s op.endpoint op.options with
      | error e => exact hs
      | ok result =>
        by_cases hst : storesToken (Except.ok result) = true
        · rw [storeToken_snd_of_stores s result hst]
          obtain ⟨st, hstore⟩ := Option.isSome_iff_exists.mp hs.1
          have htr : (result.getProp "token").truthy = true := by
            simp only [storesToken, Bool.and_eq_true] at hst
            exact hst.2
          refine ⟨by simp [hstore], Or.inr ⟨htr, ?_⟩⟩
          simp [persistedToken, hstore, Dict.get_set_self]
        · rw [storeToken_snd_of_not_stores s _ (by simpa using hst)]
          exact hs
    · rw [run_snd_of_not_auth stringify fetch s op (by simpa using ha)]
      exact hs
  | restoreToken => exact consistent_restoreToken s hs
  | clearToken => exact consistent_clearToken s hs.1
  | checkAuth =>
    show Consistent (checkAuth stringify fetch s).2
    have h1 : Consistent (if s.token.truthy then s else (restoreToken s).2) := by
      by_cases ht : s.token.truthy = true
      · simpa [ht] using hs
      · simpa [ht] using consistent_restoreToken s hs
    rcases checkAuth_cases stringify fetch s with ⟨r, hc⟩ | hc
    · rw [hc]
      exact h1
    · rw [hc]
      exact consistent_clearToken _ h1.1

theorem consistent_after_calls (stringify : JsVal → String) (calls : List (Call × Fetch)) :
    ∀ s : Session, Consistent s → Consistent (runCalls stringify s calls) := by
  induction calls with
  | nil => intro s hs; exact hs
  | cons step rest ih =>
    intro s hs
    obtain ⟨c, fetch⟩ := step
    exact ih _ (consistent_after_call stringify fetch s c hs)

/-- C29 as stated fails for a backend that answers a login with a token that is
not a string: the in-memory token is then the number itself. -/
theorem numeric_token_is_kept :
    (runCalls sampleStringify (fresh (some []))
        [(Call.domain (Op.login (JsVal.str "a@x.com") (JsVal.str "secret1")),
          answering 200 (JsVal.obj [("token", JsVal.num 12345)]))]).token =
        JsVal.num 12345 ∧
      persistedToken (runCalls sampleStringify (fresh (some []))
        [(Call.domain (Op.login (JsVal.str "a@x.com") (JsVal.str "secret1")),
          answering 200 (JsVal.obj [("token", JsVal.num 12345)]))]) = some "12345" :=
  ⟨rfl, rfl⟩

/-- C29, amended. Where the storage is available, in every state reached from a
new instance by any sequence of calls with any answers of the backend, the
in-memory token is `null`, or it is truthy and its string form is the persisted
token; in particular an in-memory token that is a string is not empty and is
the persisted token. -/
theorem token_matches_persisted (stringify : JsVal → String) (st : Dict)
    (calls : List (Call × Fetch)) :
    ((runCalls stringify (fresh (some st)) calls).token = JsVal.null ∨
        ((runCalls stringify (fresh (some st)) calls).token.truthy = true ∧
          persistedToken (runCalls stringify (fresh (some st)) calls) =
            some (runCalls stringify (fresh (some st)) calls).token.toStr)) ∧
      (∀ t : String, (runCalls stringify (fresh (some st)) calls).token = JsVal.str t →
        t ≠ "" ∧ persistedToken (runCalls stringify (fresh (some st)) calls) = some t) := by
  have h := (consistent_after_calls stringify calls (fresh (some st))
    ⟨rfl, Or.inl rfl⟩).2
  refine ⟨h, ?_⟩
  intro t ht
  rcases h with h | ⟨htr, hp⟩
  · rw [ht] at h
    cases h
  · rw [ht] at htr hp
    refine ⟨?_, by simpa [JsVal.toStr] using hp⟩
    simpa [JsVal.truthy] using htr

/-- Worked instance of C29: after a login answered with the token `abc` and a
failed listing, the token in memory is `abc` and so is the persisted one. -/
theorem token_matches_persisted_witness :
    (runCalls sampleStringify (fresh (some []))
        [(Call.domain (Op.login (JsVal.str "a@x.com") (JsVal.str "secret1")),
          answering 200 (JsVal.obj [("token", JsVal.str "abc")])),
          (Call.domain Op.getArticles, offline)]).token = JsVal.str "abc" ∧
      ("abc" ≠ "" ∧
        persistedToken (runCalls sampleStringify (fresh (some []))
          [(Call.domain (Op.login (JsVal.str "a@x.com") (JsVal.str "secret1")),
            answering 200 (JsVal.obj [("token", JsVal.str "abc")])),
            (Call.domain Op.getArticles, offline)]) = some "abc") :=
  ⟨rfl, (token_matches_persisted sampleStringify []
    [(Call.domain (Op.login (JsVal.str "a@x.com") (JsVal.str "secret1")),
      answering 200 (JsVal.obj [("token", JsVal.str "abc")])),
      (Call.domain Op.getArticles, offline)]).2 "abc" rfl⟩

end ApiService

namespace LoginScreen

open ApiService

/-- C30 as stated fails for a response that carries a token and no user:
`login` has stored the token when `handleLogin` rejects the response. -/
theorem token_without_user_is_stored :
    (handleLogin sampleStringify (answering 200 (JsVal.obj [("token", JsVal.str "abc")]))
        ⟨fresh (some []), []⟩ ⟨"a@x.com", "secret1", false⟩).2.2 =
        Outcome.failure "Неверный email или пароль" ∧
      (handleLogin sampleStringify (answering 200 (JsVal.obj [("token", JsVal.str "abc")]))
        ⟨fresh (some []), []⟩ ⟨"a@x.com", "secret1", false⟩).1.session.token =
        JsVal.str "abc" ∧
      persistedToken (handleLogin sampleStringify
        (answering 200 (JsVal.obj [("token", JsVal.str "abc")]))
        ⟨fresh (some []), []⟩ ⟨"a@x.com", "secret1", false⟩).1.session = some "abc" :=
  ⟨rfl, rfl, rfl⟩

theorem invoke_login (stringify : JsVal → String) (fetch : Fetch) (w : World)
    (email password : JsVal) :
    invoke stringify fetch w (Call.domain (Op.login email password)) =
      ((storeToken w.session (request stringify fetch w.session "/login"
          ⟨some "POST", none,
            some (JsVal.obj [("email", email), ("password", password)])⟩)).1,
        ⟨(storeToken w.session (request stringify fetch w.session "/login"
          ⟨some "POST", none,
            some (JsVal.obj [("email", email), ("password", password)])⟩)).2,
          w.calls ++ [Call.domain (Op.login email password)]⟩) := rfl

/-- C30, amended. When `handleLogin` ends in its error branch, the session is
the session before the attempt, unless the response carried a token and no
user: `login` has then stored that token. A login request that fails ends
`handleLogin` in its error branch with the session unchanged, and the session
is unchanged whenever the response carries no token. -/
theorem failed_login_keeps_credential (stringify : JsVal → String) (fetch : Fetch)
    (w : World) (f : Form) :
    (∀ notice : String, (handleLogin stringify fetch w f).2.2 = Outcome.failure notice →
        (handleLogin stringify fetch w f).1.session = w.session ∨
          ∃ result : JsVal,
            request stringify fetch w.session "/login"
              ⟨some "POST", none, some (JsVal.obj [("email", JsVal.str (jsTrim f.email)),
                ("password", JsVal.str (jsTrim f.password))])⟩ = Except.ok result ∧
            (result.getProp "token").truthy = true ∧
            (result.getProp "user").truthy = false) ∧
      (∀ e : JsError, jsTrim f.email ≠ "" → jsTrim f.password ≠ "" →
        request stringify fetch w.session "/login"
          ⟨some "POST", none, some (JsVal.obj [("email", JsVal.str (jsTrim f.email)),
            ("password", JsVal.str (jsTrim f.password))])⟩ = Except.error e →
        (handleLogin stringify fetch w f).2.2 = Outcome.failure (noticeFor e.message) ∧
          (handleLogin stringify fetch w f).1.session = w.session) ∧
      (storesToken (request stringify fetch w.session "/login"
          ⟨some "POST", none, some (JsVal.obj [("email", JsVal.str (jsTrim f.email)),
            ("password", JsVal.str (jsTrim f.password))])⟩) = false →
        (handleLogin stringify fetch w f).1.session = w.session) := by
  have hkeep : storesToken (request stringify fetch w.session "/login"
      ⟨some "POST", none, some (JsVal.obj [("email", JsVal.str (jsTrim f.email)),
        ("password", JsVal.str (jsTrim f.password))])⟩) = false →
      (handleLogin stringify fetch w f).1.session = w.session := by
    intro h
    unfold handleLogin
    split
    · rfl
    · rw [invoke_login, storeToken_fst, storeToken_snd_of_not_stores _ _ h]
      simp only []
      split
      · split <;> rfl
      · rfl
  refine ⟨?_, ?_, hkeep⟩
  · intro notice hout
    by_cases hst : storesToken (request stringify fetch w.session "/login"
        ⟨some "POST", none, some (JsVal.obj [("email", JsVal.str (jsTrim f.email)),
          ("password", JsVal.str (jsTrim f.password))])⟩) = true
    · right
      cases hreq : request stringify fetch w.session "/login"
          ⟨some "POST", none, some (JsVal.obj [("email", JsVal.str (jsTrim f.email)),
            ("password", JsVal.str (jsTrim f.password))])⟩ with
      | error e =>
        rw [hreq] at hst
        simp [storesToken] at hst
      | ok result =>
        rw [hreq] at hst
        simp only [storesToken, Bool.and_eq_true] at hst
        refine ⟨result, rfl, hst.2, ?_⟩
        by_contra huser
        have huser2 : (result.getProp "user").truthy = true := by simpa using huser
        unfold handleLogin at hout
        split at hout
        · cases hout
        · rw [invoke_login, storeToken_fst, hreq] at hout
          simp only [hst.1, huser2, Bool.and_self, if_true] at hout
          cases hout
    · left
      exact hkeep (by simpa using hst)
  · intro e he hp hreq
    have hguard : (!(JsVal.str (jsTrim f.email)).truthy ||
        !(JsVal.str (jsTrim f.password)).truthy) = false := by
      simp [JsVal.truthy, he, hp]
    refine ⟨?_, hkeep (by rw [hreq]; rfl)⟩
    unfold handleLogin
    rw [hguard, invoke_login, storeToken_fst, hreq]
    rfl

/-- Worked instance of C30: a login on an unreachable network ends in the error
branch and leaves the stored token `old` as it was. -/
theorem failed_login_keeps_credential_witness :
    jsTrim "a@x.com" ≠ "" ∧ jsTrim "secret1" ≠ "" ∧
      (handleLogin sampleStringify offline ⟨fresh (some [("authToken", "old")]), []⟩
        ⟨"a@x.com", "secret1", false⟩).2.2 =
        Outcome.failure "Проблема с подключением к серверу" ∧
      (handleLogin sampleStringify offline ⟨fresh (some [("authToken", "old")]), []⟩
        ⟨"a@x.com", "secret1", false⟩).1.session = fresh (some [("authToken", "old")]) :=
  ⟨by decide, by decide,
    (failed_login_keeps_credential sampleStringify offline
      ⟨fresh (some [("authToken", "old")]), []⟩ ⟨"a@x.com", "secret1", false⟩).2.1
      ⟨"TypeError", "Network request failed"⟩ (by decide) (by decide) rfl⟩

end LoginScreen

/-! ## The list of the home screen -/

namespace HomeScreen

theorem orZero_eq_getD (count : Option Int) : orZero count = count.getD 0 := by
  cases count <;> rfl

theorem includesChars_iff (text part : List Char) :
    includesChars text part = true ↔ part <:+: text := by
  induction text with
  | nil =>
    cases part with
    | nil => simp [includesChars]
    | cons c rest => simp [includesChars]
  | cons c rest ih =>
    rw [List.infix_cons_iff]
    simp only [includesChars, Bool.or_eq_true, ih, List.isPrefixOf_iff_prefix]

theorem strictEq_iff (value : JsVal) (text : String) :
    strictEq value text = true ↔ value = JsVal.str text := by
  cases value <;> simp [strictEq]

theorem isShown_iff (toLowerCase : String → String) (searchQuery selectedCategory : String)
    (article : Article) :
    isShown toLowerCase searchQuery selectedCategory article = true ↔
      Shown toLowerCase searchQuery selectedCategory article := by
  simp only [isShown, Shown, includes, Bool.and_eq_true, Bool.or_eq_true, decide_eq_true_eq,
    includesChars_iff, strictEq_iff, or_assoc]

theorem compareBy_eq_sub (sortBy : String) (a b : Article) :
    compareBy sortBy a b = sortKey sortBy b - sortKey sortBy a := by
  unfold compareBy sortKey
  simp only [orZero_eq_getD]
  by_cases h1 : sortBy = "newest"
  · subst h1
    simp
  · by_cases h2 : sortBy = "oldest"
    · subst h2
      simp
      ring
    · by_cases h3 : sortBy = "most_views"
      · subst h3
        simp
      · by_cases h4 : sortBy = "most_likes"
        · subst h4
          simp
        · by_cases h5 : sortBy = "most_comments"
          · subst h5
            simp
          · simp [h1, h2, h3, h4, h5]

theorem filter_stage_eq (toLowerCase : String → String) (articles : List Article)
    (searchQuery selectedCategory : String) :
    (if selectedCategory ≠ "all" then
        (if (JsVal.str (jsTrim searchQuery)).truthy then
          articles.filter (fun article =>
            includes (toLowerCase article.title) (jsTrim (toLowerCase searchQuery)) ||
            includes (toLowerCase article.content) (jsTrim (toLowerCase searchQuery)) ||
            includes (toLowerCase article.author_name) (jsTrim (toLowerCase searchQuery)))
        else articles).filter (fun article => strictEq article.category selectedCategory)
      else
        (if (JsVal.str (jsTrim searchQuery)).truthy then
          articles.filter (fun article =>
            includes (toLowerCase article.title) (jsTrim (toLowerCase searchQuery)) ||
            includes (toLowerCase article.content) (jsTrim (toLowerCase searchQuery)) ||
            includes (toLowerCase article.author_name) (jsTrim (toLowerCase searchQuery)))
        else articles)) =
      articles.filter (isShown toLowerCase searchQuery selectedCategory) := by
  by_cases hq : jsTrim searchQuery = "" <;> by_cases hc : selectedCategory = "all"
  · simp only [JsVal.truthy, hq, hc, ne_eq, not_true_eq_false, if_false, bne_self_eq_false,
      Bool.false_eq_true]
    symm
    apply List.filter_eq_self.mpr
    intro a _
    simp [isShown, hq]
  · simp only [JsVal.truthy, hq, hc, ne_eq, not_false_eq_true, if_true, bne_self_eq_false,
      Bool.false_eq_true, if_false]
    apply List.filter_congr
    intro a _
    simp [isShown, hq, hc]
  · simp only [JsVal.truthy, hc, ne_eq, not_true_eq_false, if_false, bne_iff_ne, hq,
      not_false_eq_true, decide_True, if_true]
    apply List.filter_congr
    intro a _
    simp [isShown, hq, hc]
  · simp only [JsVal.truthy, hc, ne_eq, not_false_eq_true, if_true, bne_iff_ne, hq,
      decide_True, List.filter_filter]
    apply List.filter_congr
    intro a _
    simp [isShown, hq, hc, Bool.and_comm]

theorem filteredArticles_eq (toLowerCase : String → String) (articles : List Article)
    (searchQuery selectedCategory sortBy : String) :
    filteredArticles toLowerCase articles searchQuery selectedCategory sortBy =
      (articles.filter (isShown toLowerCase searchQuery selectedCategory)).insertionSort
        (fun a b => compareBy sortBy a b ≤ 0) := by
  rw [← filter_stage_eq]
  rfl

/-- C22. The displayed list holds exactly the articles that pass the search
query and the category, each as often as the loaded list holds it: it is a
permutation of the loaded list filtered by a test that holds exactly for the
articles the specification wants displayed, and an article is in it exactly
when it is loaded and wanted. With a blank query and the category `all` the
displayed list is a permutation of the loaded list. -/
theorem displayed_articles (toLowerCase : String → String) (articles : List Article)
    (searchQuery selectedCategory sortBy : String) :
    (filteredArticles toLowerCase articles searchQuery selectedCategory sortBy).Perm
        (articles.filter (isShown toLowerCase searchQuery selectedCategory)) ∧
      (∀ a : Article, isShown toLowerCase searchQuery selectedCategory a = true ↔
        Shown toLowerCase searchQuery selectedCategory a) ∧
      (∀ a : Article,
        a ∈ filteredArticles toLowerCase articles searchQuery selectedCategory sortBy ↔
          a ∈ articles ∧ Shown toLowerCase searchQuery selectedCategory a) ∧
      (jsTrim searchQuery = "" → selectedCategory = "all" →
        (filteredArticles toLowerCase articles searchQuery selectedCategory sortBy).Perm
          articles) := by
  have hperm : (filteredArticles toLowerCase articles searchQuery selectedCategory
      sortBy).Perm (articles.filter (isShown toLowerCase searchQuery selectedCategory)) := by
    rw [filteredArticles_eq]
    exact List.perm_insertionSort _ _
  refine ⟨hperm, isShown_iff toLowerCase searchQuery selectedCategory, ?_, ?_⟩
  · intro a
    rw [hperm.mem_iff, List.mem_filter, isShown_iff]
  · intro hq hc
    have hall : articles.filter (isShown toLowerCase searchQuery selectedCategory) =
        articles := by
      apply List.filter_eq_self.mpr
      intro a _
      simp [isShown, hq, hc]
    rw [hall] at hperm
    exact hperm

/-- Worked instance of C22 on the three sample articles: a blank query with the
category `all` keeps them all, the query `A` with the category `travel` keeps
`Atlas` and `Cab`, and the query `ba` keeps `Bread`, whose content holds it. -/
theorem displayed_articles_witness :
    jsTrim "  " = "" ∧
      (filteredArticles asciiLower sampleArticles "  " "all" "newest").Perm sampleArticles ∧
      (filteredArticles asciiLower sampleArticles " A " "travel" "newest").map
        (fun a => a.title) = ["Atlas", "Cab"] ∧
      (filteredArticles asciiLower sampleArticles "ba" "all" "newest").map
        (fun a => a.title) = ["Bread"] ∧
      Shown asciiLower " A " "travel"
        ⟨"Cab", "taxi in town", "Eve", JsVal.str "travel", 7, some 8, none, some 6⟩ :=
  ⟨by decide,
    (displayed_articles asciiLower sampleArticles "  " "all" "newest").2.2.2 (by decide) rfl,
    by decide, by decide,
    ((displayed_articles asciiLower sampleArticles " A " "travel" "newest").2.1
      ⟨"Cab", "taxi in town", "Eve", JsVal.str "travel", 7, some 8, none, some 6⟩).mp rfl⟩

/-- C23. The displayed list is a permutation of the filtered list in which the
key of the selected option never increases: the creation time for `newest`,
its negative for `oldest` (so that the creation time never decreases), the
views, likes or comments, a missing count taken as 0, for `most_views`,
`most_likes` and `most_comments`. Any other option gives the list of `newest`. -/
theorem displayed_order (toLowerCase : String → String) (articles : List Article)
    (searchQuery selectedCategory sortBy : String) :
    (filteredArticles toLowerCase articles searchQuery selectedCategory sortBy).Perm
        (articles.filter (isShown toLowerCase searchQuery selectedCategory)) ∧
      (filteredArticles toLowerCase articles searchQuery selectedCategory sortBy).Pairwise
        (fun a b => sortKey sortBy b ≤ sortKey sortBy a) ∧
      (sortBy ≠ "newest" → sortBy ≠ "oldest" → sortBy ≠ "most_views" →
        sortBy ≠ "most_likes" → sortBy ≠ "most_comments" →
        filteredArticles toLowerCase articles searchQuery selectedCategory sortBy =
          filteredArticles toLowerCase articles searchQuery selectedCategory "newest") := by
  refine ⟨?_, ?_, ?_⟩
  · rw [filteredArticles_eq]
    exact List.perm_insertionSort _ _
  · rw [filteredArticles_eq]
    have hrel : (fun a b : Article => compareBy sortBy a b ≤ 0) =
        (fun a b : Article => sortKey sortBy b ≤ sortKey sortBy a) := by
      funext a b
      rw [compareBy_eq_sub]
      exact propext sub_nonpos
    haveI : IsTotal Article (fun a b : Article => sortKey sortBy b ≤ sortKey sortBy a) :=
      ⟨fun a b => le_total _ _⟩
    haveI : IsTrans Article (fun a b : Article => sortKey sortBy b ≤ sortKey sortBy a) :=
      ⟨fun a b c hab hbc => le_trans hbc hab⟩
    have hsorted := List.sorted_insertionSort
      (fun a b : Article => sortKey sortBy b ≤ sortKey sortBy a)
      (articles.filter (isShown toLowerCase searchQuery selectedCategory))
    convert hsorted using 2
  · intro h1 h2 h3 h4 h5
    rw [filteredArticles_eq, filteredArticles_eq]
    have hcmp : compareBy sortBy = compareBy "newest" := by
      funext a b
      simp [compareBy, h1, h2, h3, h4, h5]
    rw [hcmp]

/-- Worked instance of C23 on the three sample articles, whose views are 3,
none and 8, whose likes are 1, 4 and none, whose comments are none, 2 and 6 and
whose creation times are 5, 9 and 7: the order under each option, and the
option `random`, which orders as `newest` does. -/
theorem displayed_order_witness :
    "random" ≠ "newest" ∧
      filteredArticles asciiLower sampleArticles "" "all" "random" =
        filteredArticles asciiLower sampleArticles "" "all" "newest" ∧
      (filteredArticles asciiLower sampleArticles "" "all" "newest").map
        (fun a => a.title) = ["Atlas", "Cab", "Bread"] ∧
      (filteredArticles asciiLower sampleArticles "" "all" "oldest").map
        (fun a => a.title) = ["Bread", "Cab", "Atlas"] ∧
      (filteredArticles asciiLower sampleArticles "" "all" "most_views").map
        (fun a => a.title) = ["Cab", "Bread", "Atlas"] ∧
      (filteredArticles asciiLower sampleArticles "" "all" "most_likes").map
        (fun a => a.title) = ["Atlas", "Bread", "Cab"] ∧
      (filteredArticles asciiLower sampleArticles "" "all" "most_comments").map
        (fun a => a.title) = ["Cab", "Atlas", "Bread"] ∧
      (filteredArticles asciiLower sampleArticles "" "all" "most_views").Pairwise
        (fun a b => b.views.getD 0 ≤ a.views.getD 0) :=
  ⟨by decide,
    (displayed_order asciiLower sampleArticles "" "all" "random").2.2
      (by decide) (by decide) (by decide) (by decide) (by decide),
    by decide, by decide, by decide, by decide, by decide,
    (displayed_order asciiLower sampleArticles "" "all" "most_views").2.1⟩

end HomeScreen

/-! ## The statistics screen -/

namespace StatisticsScreen

theorem one_le_maxValue (counts : List Nat) : 1 ≤ maxValue counts := by
  induction counts with
  | nil => simp [maxValue]
  | cons c rest ih =>
    have hstep : maxValue (c :: rest) = max c (maxValue rest) := rfl
    rw [hstep]
    exact le_trans ih (le_max_right _ _)

theorem le_maxValue (counts : List Nat) (count : Nat) (h : count ∈ counts) :
    count ≤ maxValue counts := by
  induction counts with
  | nil => simp at h
  | cons c rest ih =>
    have hstep : maxValue (c :: rest) = max c (maxValue rest) := rfl
    rw [hstep]
    rcases List.mem_cons.mp h with h | h
    · subst h
      exact le_max_left _ _
    · exact le_trans (ih h) (le_max_right _ _)

theorem maxValue_le (counts : List Nat) (m : Nat) (h1 : 1 ≤ m)
    (hall : ∀ c ∈ counts, c ≤ m) : maxValue counts ≤ m := by
  induction counts with
  | nil => simpa [maxValue] using h1
  | cons c rest ih =>
    have hstep : maxValue (c :: rest) = max c (maxValue rest) := rfl
    rw [hstep]
    exact max_le (hall c (List.mem_cons_self _ _))
      (ih (fun x hx => hall x (List.mem_cons_of_mem _ hx)))

/-- C26. For every item of the data, the divisor `maxValue` is at least 1, the
height of the bar is `max(count / maxValue * 150, 10)`, it lies between 10
and 150, and it is 150 for an item that holds the largest count when that
count is at least 1. The arithmetic is that of the exact fractions. -/
theorem barHeight_bounds (counts : List Nat) (count : Nat) (h : count ∈ counts) :
    1 ≤ maxValue counts ∧
      barHeight counts count = max ((count : ℚ) / (maxValue counts : ℚ) * 150) 10 ∧
      10 ≤ barHeight counts count ∧
      barHeight counts count ≤ 150 ∧
      (1 ≤ count → (∀ c ∈ counts, c ≤ count) → barHeight counts count = 150) := by
  have hpos : (0 : ℚ) < (maxValue counts : ℚ) := by
    exact_mod_cast one_le_maxValue counts
  have hle : (count : ℚ) ≤ (maxValue counts : ℚ) := by
    exact_mod_cast le_maxValue counts count h
  have hfrac : (count : ℚ) / (maxValue counts : ℚ) * 150 ≤ 150 := by
    have h1 : (count : ℚ) / (maxValue counts : ℚ) ≤ 1 := (div_le_one hpos).mpr hle
    nlinarith
  refine ⟨one_le_maxValue counts, rfl, le_max_right _ _, max_le hfrac (by norm_num), ?_⟩
  intro h1 hall
  have hmax : maxValue counts = count :=
    le_antisymm (maxValue_le counts count h1 hall) (le_maxValue counts count h)
  have hne : (count : ℚ) ≠ 0 := by
    have : (0 : ℚ) < (count : ℚ) := by exact_mod_cast h1
    exact ne_of_gt this
  unfold barHeight
  rw [hmax, div_self hne]
  norm_num

/-- Worked instance of C26: the bars of the counts 2 and 5. -/
theorem barHeight_bounds_witness :
    5 ∈ [2, 5] ∧ 10 ≤ barHeight [2, 5] 5 ∧ barHeight [2, 5] 5 ≤ 150 :=
  ⟨by decide, (barHeight_bounds [2, 5] 5 (by decide)).2.2.1,
    (barHeight_bounds [2, 5] 5 (by decide)).2.2.2.1⟩

/-- C25. For nine articles created in nine different weeks the total shown is
8: `totalArticles` adds the counts of the weeks kept for the chart, which are
the last eight. -/
theorem total_counts_last_eight_weeks :
    nineWeeks.length = 9 ∧ totalArticles (statistics ⟨20200, 0⟩ nineWeeks) = 8 := by
  constructor
  · rfl
  · decide

end StatisticsScreen

namespace StatisticsScreen

theorem weekStartEnd_days (d : LocalDate) :
    (getWeekStartEnd d).1.day = mondayOf d.day ∧
      (getWeekStartEnd d).2.day = mondayOf d.day + 6 := by
  unfold getWeekStartEnd setDate getDay getDate mondayOf
  simp only
  constructor
  · split_ifs with h <;> omega
  · split_ifs with h <;> omega

theorem mondayOf_facts (x : Int) :
    (mondayOf x + 4) % 7 = 1 ∧ mondayOf x ≤ x ∧ x ≤ mondayOf x + 6 ∧
      (mondayOf x + 6 + 4) % 7 = 0 := by
  unfold mondayOf
  omega

theorem weekNumber_of_mondays (s t : LocalDate) (hs : (s.day + 4) % 7 = 1)
    (ht : (t.day + 4) % 7 = 1) (hy : yearOfDay s.day = yearOfDay t.day) :
    getWeekNumber s = getWeekNumber t ↔ s.day = t.day := by
  unfold getWeekNumber getFullYear getDay msBetween
  simp only [hy]
  have h1 := s.ms.isLt
  have h2 := t.ms.isLt
  have h0 : ((0 : Fin 86400000).val : Int) = 0 := rfl
  rw [h0]
  generalize firstDayOf (yearOfDay t.day) = c
  omega

theorem weekKey_eq_iff (a b : LocalDate) :
    weekKey a = weekKey b ↔ mondayOf a.day = mondayOf b.day := by
  have ha := (weekStartEnd_days a).1
  have hb := (weekStartEnd_days b).1
  have hma : ((getWeekStartEnd a).1.day + 4) % 7 = 1 := by
    rw [ha]; exact (mondayOf_facts a.day).1
  have hmb : ((getWeekStartEnd b).1.day + 4) % 7 = 1 := by
    rw [hb]; exact (mondayOf_facts b.day).1
  unfold weekKey getFullYear
  constructor
  · intro h
    have hy : yearOfDay (getWeekStartEnd a).1.day = yearOfDay (getWeekStartEnd b).1.day :=
      congrArg Prod.fst h
    have hw : getWeekNumber (getWeekStartEnd a).1 = getWeekNumber (getWeekStartEnd b).1 :=
      congrArg Prod.snd h
    have := (weekNumber_of_mondays _ _ hma hmb hy).mp hw
    rw [ha, hb] at this
    exact this
  · intro h
    have hd : (getWeekStartEnd a).1.day = (getWeekStartEnd b).1.day := by
      rw [ha, hb, h]
    have hy : yearOfDay (getWeekStartEnd a).1.day = yearOfDay (getWeekStartEnd b).1.day := by
      rw [hd]
    exact Prod.ext hy ((weekNumber_of_mondays _ _ hma hmb hy).mpr hd)

end StatisticsScreen

namespace StatisticsScreen

theorem keys_addToWeek (g : List ((Int × Int) × Bucket)) (key : Int × Int) (c : Bucket) :
    (addToWeek g key c).map (fun e => e.1) =
      if key ∈ g.map (fun e => e.1) then g.map (fun e => e.1)
      else g.map (fun e => e.1) ++ [key] := by
  induction g with
  | nil => simp [addToWeek]
  | cons e rest ih =>
    obtain ⟨k, b⟩ := e
    by_cases hk : k = key
    · subst hk
      simp [addToWeek]
    · have hk2 : ¬ key = k := fun h => hk h.symm
      simp only [addToWeek, hk, if_false, List.map_cons, ih, List.mem_cons, hk2, false_or]
      split_ifs <;> simp

theorem nodup_keys_addToWeek (g : List ((Int × Int) × Bucket)) (key : Int × Int) (c : Bucket)
    (h : (g.map (fun e => e.1)).Nodup) : ((addToWeek g key c).map (fun e => e.1)).Nodup := by
  rw [keys_addToWeek]
  split_ifs with hmem
  · exact h
  · exact List.Nodup.append h (List.nodup_singleton key)
      (by
        intro x hx hx2
        rw [List.mem_singleton] at hx2
        subst hx2
        exact hmem hx)

theorem countUnder_addToWeek (g : List ((Int × Int) × Bucket)) (key other : Int × Int)
    (c : Bucket) (hc : c.count = 0) :
    countUnder (addToWeek g key c) other =
      countUnder g other + (if key = other then 1 else 0) := by
  induction g with
  | nil => simp [addToWeek, countUnder, hc]
  | cons e rest ih =>
    obtain ⟨k, b⟩ := e
    by_cases hk : k = key
    · subst hk
      simp only [addToWeek, if_true, countUnder]
      split_ifs <;> omega
    · simp only [addToWeek, hk, if_false, countUnder, ih]
      omega

theorem countUnder_of_mem (g : List ((Int × Int) × Bucket))
    (h : (g.map (fun e => e.1)).Nodup) (e : (Int × Int) × Bucket) (he : e ∈ g) :
    countUnder g e.1 = e.2.count := by
  induction g with
  | nil => simp at he
  | cons x rest ih =>
    obtain ⟨k, b⟩ := x
    simp only [List.map_cons, List.nodup_cons] at h
    have hzero : ∀ r : List ((Int × Int) × Bucket), k ∉ r.map (fun e => e.1) →
        countUnder r k = 0 := by
      intro r
      induction r with
      | nil => intro _; rfl
      | cons y r2 ih2 =>
        intro hnot
        obtain ⟨k2, b2⟩ := y
        simp only [List.map_cons, List.mem_cons, not_or] at hnot
        have hne : ¬ k2 = k := fun h2 => hnot.1 h2.symm
        simp [countUnder, hne, ih2 hnot.2]
    rcases List.mem_cons.mp he with he | he
    · subst he
      simp [countUnder, hzero rest h.1]
    · have hne : ¬ k = e.1 := by
        intro h2
        apply h.1
        rw [h2]
        exact List.mem_map_of_mem (fun e => e.1) he
      simp [countUnder, hne, ih h.2 he]

theorem total_addToWeek (g : List ((Int × Int) × Bucket)) (key : Int × Int) (c : Bucket)
    (hc : c.count = 0) :
    ((addToWeek g key c).map (fun e => e.2.count)).sum =
      (g.map (fun e => e.2.count)).sum + 1 := by
  induction g with
  | nil => simp [addToWeek, hc]
  | cons e rest ih =>
    obtain ⟨k, b⟩ := e
    by_cases hk : k = key
    · subst hk
      simp only [addToWeek, if_true, List.map_cons, List.sum_cons]
      omega
    · simp only [addToWeek, hk, if_false, List.map_cons, List.sum_cons, ih]
      omega

theorem week_of_mem_addToWeek (g : List ((Int × Int) × Bucket)) (key : Int × Int)
    (c : Bucket) (e : (Int × Int) × Bucket) (he : e ∈ addToWeek g key c) :
    (∃ e0 ∈ g, e.1 = e0.1 ∧ e.2.week = e0.2.week) ∨ (e.1 = key ∧ e.2.week = c.week) := by
  induction g with
  | nil =>
    simp only [addToWeek, List.mem_singleton] at he
    subst he
    exact Or.inr ⟨rfl, rfl⟩
  | cons x rest ih =>
    obtain ⟨k, b⟩ := x
    by_cases hk : k = key
    · simp only [addToWeek, hk, if_true, List.mem_cons] at he
      rcases he with he | he
      · subst he
        exact Or.inl ⟨(k, b), List.mem_cons_self _ _, hk.symm, rfl⟩
      · exact Or.inl ⟨e, List.mem_cons_of_mem _ he, rfl, rfl⟩
    · simp only [addToWeek, hk, if_false, List.mem_cons] at he
      rcases he with he | he
      · subst he
        exact Or.inl ⟨(k, b), List.mem_cons_self _ _, rfl, rfl⟩
      · rcases ih he with ⟨e0, h0, h1⟩ | h
        · exact Or.inl ⟨e0, List.mem_cons_of_mem _ h0, h1⟩
        · exact Or.inr h

end StatisticsScreen

namespace StatisticsScreen

theorem keys_subset_addToWeek (g : List ((Int × Int) × Bucket)) (key : Int × Int) (c : Bucket) :
    key ∈ (addToWeek g key c).map (fun e => e.1) ∧
      ∀ k ∈ g.map (fun e => e.1), k ∈ (addToWeek g key c).map (fun e => e.1) := by
  rw [keys_addToWeek]
  split_ifs with h
  · exact ⟨h, fun k hk => hk⟩
  · exact ⟨by simp, fun k hk => List.mem_append_left _ hk⟩

theorem fold_facts (created : List LocalDate) :
    ∀ g : List ((Int × Int) × Bucket),
      (g.map (fun e => e.1)).Nodup →
      (∀ e ∈ g, ∃ d : LocalDate, e.1 = weekKey d ∧ e.2.week = getWeekStartEnd d) →
      ((created.foldl recordArticle g).map (fun e => e.1)).Nodup ∧
        (∀ e ∈ created.foldl recordArticle g,
          ∃ d : LocalDate, e.1 = weekKey d ∧ e.2.week = getWeekStartEnd d) ∧
        (∀ k : Int × Int, countUnder (created.foldl recordArticle g) k =
          countUnder g k + (created.filter (fun a => decide (weekKey a = k))).length) ∧
        ((created.foldl recordArticle g).map (fun e => e.2.count)).sum =
          (g.map (fun e => e.2.count)).sum + created.length ∧
        (∀ a ∈ created, weekKey a ∈ (created.foldl recordArticle g).map (fun e => e.1)) ∧
        (∀ k ∈ g.map (fun e => e.1), k ∈ (created.foldl recordArticle g).map (fun e => e.1)) := by
  induction created with
  | nil =>
    intro g hn hw
    exact ⟨hn, hw, fun k => by simp, by simp, fun a ha => by simp at ha, fun k hk => hk⟩
  | cons d rest ih =>
    intro g hn hw
    have hn2 : ((recordArticle g d).map (fun e => e.1)).Nodup :=
      nodup_keys_addToWeek g _ _ hn
    have hw2 : ∀ e ∈ recordArticle g d,
        ∃ d0 : LocalDate, e.1 = weekKey d0 ∧ e.2.week = getWeekStartEnd d0 := by
      intro e he
      rcases week_of_mem_addToWeek g _ _ e he with ⟨e0, h0, h1, h2⟩ | ⟨h1, h2⟩
      · obtain ⟨d0, hd1, hd2⟩ := hw e0 h0
        exact ⟨d0, by rw [h1, hd1], by rw [h2, hd2]⟩
      · exact ⟨d, h1, h2⟩
    obtain ⟨r1, r2, r3, r4, r5, r6⟩ := ih (recordArticle g d) hn2 hw2
    have hsub := keys_subset_addToWeek g (weekKey d)
      ⟨getWeekStartEnd d, 0, (getWeekStartEnd d).1,
        some (getFullYear (getWeekStartEnd d).1), some (getWeekNumber (getWeekStartEnd d).1)⟩
    refine ⟨r1, r2, ?_, ?_, ?_, ?_⟩
    · intro k
      have h3 := r3 k
      have hstep : countUnder (recordArticle g d) k =
          countUnder g k + (if weekKey d = k then 1 else 0) :=
        countUnder_addToWeek g _ k _ rfl
      simp only [List.foldl_cons, List.filter_cons]
      rw [h3, hstep]
      by_cases hk : weekKey d = k
      · simp [hk]
        omega
      · simp [hk]
    · have hstep : ((recordArticle g d).map (fun e => e.2.count)).sum =
          (g.map (fun e => e.2.count)).sum + 1 := total_addToWeek g _ _ rfl
      simp only [List.foldl_cons, List.length_cons]
      rw [r4, hstep]
      omega
    · intro a ha
      simp only [List.foldl_cons]
      rcases List.mem_cons.mp ha with ha | ha
      · subst ha
        exact r6 _ hsub.1
      · exact r5 a ha
    · intro k hk
      simp only [List.foldl_cons]
      exact r6 k (hsub.2 k hk)

/-- C24. The grouping of the user's articles by week: two creation dates get the
same key exactly when the Monday on or before them is the same day; there is
one entry for each key and its count is the number of articles with that key;
the range of an entry starts on the Monday on or before each of its articles
and ends on the Sunday six days later; and the counts of `statsData` sum to the
number of articles. -/
theorem weekly_buckets (created : List LocalDate) :
    (∀ a b : LocalDate, weekKey a = weekKey b ↔ mondayOf a.day = mondayOf b.day) ∧
      ((articlesByWeek created).map (fun e => e.1)).Nodup ∧
      (∀ a ∈ created, ∃ e ∈ articlesByWeek created, e.1 = weekKey a) ∧
      (∀ e ∈ articlesByWeek created,
        e.2.count = (created.filter (fun a => decide (weekKey a = e.1))).length) ∧
      (∀ e ∈ articlesByWeek created, ∀ a ∈ created, weekKey a = e.1 →
        getDay e.2.week.1 = 1 ∧ e.2.week.1.day ≤ a.day ∧ a.day ≤ e.2.week.1.day + 6 ∧
          e.2.week.2.day = e.2.week.1.day + 6 ∧ getDay e.2.week.2 = 0) ∧
      ((statsData created).map (fun b => b.count)).sum = created.length := by
  obtain ⟨f1, f2, f3, f4, f5, _⟩ := fold_facts created [] (by simp) (by simp)
  refine ⟨weekKey_eq_iff, f1, ?_, ?_, ?_, ?_⟩
  · intro a ha
    have hmem := f5 a ha
    rw [List.mem_map] at hmem
    obtain ⟨e, he, hk⟩ := hmem
    exact ⟨e, he, hk⟩
  · intro e he
    have h := f3 e.1
    rw [countUnder_of_mem _ f1 e he] at h
    simpa [countUnder] using h
  · intro e he a _ hkey
    obtain ⟨d, hd1, hd2⟩ := f2 e he
    have hsame : mondayOf a.day = mondayOf d.day :=
      (weekKey_eq_iff a d).mp (by rw [hkey, hd1])
    have hdays := weekStartEnd_days d
    have hfacts := mondayOf_facts a.day
    rw [hd2]
    unfold getDay
    rw [hdays.1, hdays.2, ← hsame]
    exact ⟨hfacts.1, hfacts.2.1, hfacts.2.2.1, rfl, hfacts.2.2.2⟩
  · have hperm : (statsData created).Perm ((articlesByWeek created).map (fun e => e.2)) :=
      List.perm_insertionSort _ _
    have hsum := (hperm.map (fun b : Bucket => b.count)).sum_eq
    rw [hsum, List.map_map]
    have h4 : ((articlesByWeek created).map (fun e => e.2.count)).sum = created.length := by
      simpa using f4
    exact h4

end StatisticsScreen

namespace StatisticsScreen

/-- Worked instance of C24: Wednesday 31 December 2025 and Sunday 4 January 2026
lie in the week of Monday 29 December and get the same key. -/
theorem weekly_buckets_witness :
    mondayOf (⟨20453, 5000⟩ : LocalDate).day = mondayOf (⟨20457, 0⟩ : LocalDate).day ∧
      weekKey ⟨20453, 5000⟩ = weekKey ⟨20457, 0⟩ :=
  ⟨by decide, ((weekly_buckets []).1 ⟨20453, 5000⟩ ⟨20457, 0⟩).mpr (by decide)⟩

end StatisticsScreen
